import Mathlib

/-!
# Verification of the skill-arena serpentine-arena game engine

Shallow embedding of the engine's core logic:

* `src/src/lib/gameTypes.ts` — configuration constants and entity shapes;
* `src/src/lib/gameUtils.ts` — geometry helpers, the client collision test
  and the spatial hash;
* `src/src/hooks/useGameState.ts` — the client tick: movement, boost
  gating, body follow, growth, collision resolution, food maintenance;
* `supabase/functions/game-server/index.ts` — the edge-function copy of
  the simulation (its collision test and self-collision call site);
* the bot controller (`botAI.ts`) — personality state and
  `calculateBotMove`.

Two layers are used:

* an exact-arithmetic layer over `ℚ`, for the parts of the engine that are
  decided purely by comparisons of coordinates and scores (collision
  predicates, collision resolution, growth, food top-up, boost energy).
  JavaScript's `Math.sqrt(d2) < t` is embedded as the decidable predicate
  `0 < t ∧ d2 < t * t`, which is equivalent for every real threshold `t`
  (the bridging lemma `distLt_iff_sqrt_lt` below proves this);
* a real-number layer (`ℝ`) for the trigonometric kinematics
  (`Math.atan2`, `Math.cos`/`sin`, `normalizeAngle`, head movement, body
  follow, and the bot controller).

JavaScript `number` values are modelled as exact rationals/reals; the spec
describes the engine at this level of precision. Debug-only bookkeeping of
the source (`deathReason`, `deathMeta`, `console.log`) has no effect on the
game state and is not modelled.
-/

namespace SkillArena

/-! ## Configuration (gameTypes.ts, GAME_CONFIG) -/

namespace GAME_CONFIG

def MAP_WIDTH : ℚ := 5000
def MAP_HEIGHT : ℚ := 5000
def BASE_SPEED : ℚ := 3.54
def BOOST_SPEED : ℚ := 7.08
def BOOST_COST_PER_TICK : ℚ := 0.1
def INITIAL_LENGTH : ℕ := 10
def SEGMENT_RADIUS : ℚ := 12
def SEGMENT_SPACING : ℚ := 8
def FOOD_SPAWN_RATE : ℕ := 236
def MATCH_DURATION : ℚ := 180
def TOTAL_PLAYERS : ℕ := 30
def TICK_RATE : ℚ := 20
def TURN_RATE : ℚ := 0.15

end GAME_CONFIG

/-! ## Entities (gameTypes.ts), exact-arithmetic layer -/

/-- `SnakeSegment`: a position with a radius. -/
structure Seg where
  x : ℚ
  y : ℚ
  radius : ℚ
  deriving DecidableEq

instance : Inhabited Seg := ⟨⟨0, 0, 0⟩⟩

/-- `Food`: identity, position, value, color. -/
structure FoodQ where
  id : String
  x : ℚ
  y : ℚ
  value : ℚ
  color : String
  deriving DecidableEq

/-- `Snake` / `SerializedSnake`, plus the transient `hitBorder` flag the
client tick attaches to a snake between its movement update and the
collision passes of the same tick. -/
structure SnakeQ where
  id : String
  name : String
  color : String
  segments : List Seg
  direction : ℚ
  speed : ℚ
  score : ℚ
  isBoosting : Bool
  isAlive : Bool
  kills : ℕ
  hitBorder : Bool
  deriving DecidableEq

/-! ## Geometry (gameUtils.ts) -/

/-- The squared distance between two segment centres; `distance` in the
source is `Math.sqrt` of this. -/
def dist2 (p₁ p₂ : Seg) : ℚ :=
  (p₂.x - p₁.x) * (p₂.x - p₁.x) + (p₂.y - p₁.y) * (p₂.y - p₁.y)

/-- Embedding of the source comparison `distance(p₁, p₂) < d`: for a
nonnegative radicand, `Math.sqrt(d2) < d` holds exactly when
`0 < d ∧ d2 < d * d` (see `distLt_iff_sqrt_lt`). -/
def distLt (p₁ p₂ : Seg) (d : ℚ) : Bool :=
  decide (0 < d ∧ dist2 p₁ p₂ < d * d)

/-- The squared-distance embedding agrees with the real square root the
source computes. -/
theorem distLt_iff_sqrt_lt (p₁ p₂ : Seg) (d : ℚ) :
    distLt p₁ p₂ d = true ↔ Real.sqrt ((dist2 p₁ p₂ : ℚ) : ℝ) < (d : ℝ) := by
  have hnn : (0 : ℝ) ≤ ((dist2 p₁ p₂ : ℚ) : ℝ) := by
    have : (0 : ℚ) ≤ dist2 p₁ p₂ := by
      have h1 : (0 : ℚ) ≤ (p₂.x - p₁.x) * (p₂.x - p₁.x) := mul_self_nonneg _
      have h2 : (0 : ℚ) ≤ (p₂.y - p₁.y) * (p₂.y - p₁.y) := mul_self_nonneg _
      unfold dist2; linarith
    exact_mod_cast this
  constructor
  · intro h
    rw [distLt, decide_eq_true_iff] at h
    obtain ⟨hd, hlt⟩ := h
    have hdR : (0 : ℝ) < (d : ℝ) := by exact_mod_cast hd
    have hltR : ((dist2 p₁ p₂ : ℚ) : ℝ) < (d : ℝ) * (d : ℝ) := by exact_mod_cast hlt
    have := Real.sqrt_lt_sqrt hnn (by linarith : ((dist2 p₁ p₂ : ℚ) : ℝ) < (d : ℝ) ^ 2)
    calc Real.sqrt ((dist2 p₁ p₂ : ℚ) : ℝ) < Real.sqrt ((d : ℝ) ^ 2) := this
      _ = (d : ℝ) := Real.sqrt_sq hdR.le
  · intro h
    have hdR : (0 : ℝ) < (d : ℝ) := lt_of_le_of_lt (Real.sqrt_nonneg _) h
    have hlt2 : ((dist2 p₁ p₂ : ℚ) : ℝ) < (d : ℝ) * (d : ℝ) := by
      have := Real.sq_sqrt hnn
      nlinarith [Real.sqrt_nonneg ((dist2 p₁ p₂ : ℚ) : ℝ)]
    rw [distLt, decide_eq_true_iff]
    constructor
    · exact_mod_cast hdR
    · exact_mod_cast hlt2

/-- The index sequence `startIndex, startIndex + step, …` of a source
`for (let i = startIndex; i < len; i += step)` loop. -/
def stepIndices (start len step : ℕ) : List ℕ :=
  List.range' start ((len - start + step - 1) / step) step

theorem mem_stepIndices_lower {start len step i : ℕ}
    (h : i ∈ stepIndices start len step) : start ≤ i := by
  rw [stepIndices, List.mem_range'] at h
  obtain ⟨k, _, rfl⟩ := h
  exact Nat.le_add_right _ _

theorem mem_stepIndices_upper {start len step i : ℕ} (hstep : 0 < step)
    (h : i ∈ stepIndices start len step) : i < len := by
  rw [stepIndices, List.mem_range'] at h
  obtain ⟨k, hk, rfl⟩ := h
  have h1 : step * (k + 1) ≤ step * ((len - start + step - 1) / step) :=
    Nat.mul_le_mul_left _ hk
  have h2 : step * ((len - start + step - 1) / step) ≤ len - start + step - 1 :=
    Nat.mul_div_le _ _
  have h3 : step * (k + 1) ≤ len - start + step - 1 := le_trans h1 h2
  have h4 : step * k + step ≤ len - start + step - 1 := by
    calc step * k + step = step * (k + 1) := by ring
      _ ≤ _ := h3
  omega

theorem mem_stepIndices_of {start len step i : ℕ} (hstep : 0 < step)
    (hlo : start ≤ i) (hhi : i < len) (hdvd : step ∣ i - start) :
    i ∈ stepIndices start len step := by
  obtain ⟨k, hk⟩ := hdvd
  rw [stepIndices, List.mem_range']
  have hik : i = start + step * k := by omega
  refine ⟨k, ?_, hik⟩
  have h5 : (k + 1) * step ≤ len - start + step - 1 := by
    have hexp : (k + 1) * step = step * k + step := by ring
    omega
  exact Nat.lt_of_succ_le ((Nat.le_div_iff_mul_le hstep).mpr h5)

/-! ## The client collision test (gameUtils.ts, checkSnakeCollision) -/

namespace Client

/-- The fixed sub-unity collision multiplier of the client test
(gameUtils.ts line 131). -/
def collisionMultiplier : ℚ := 0.85

/-- The Manhattan-distance quick-reject of `checkSnakeCollision` (run only
for `!isSelf`): too far from the other snake's head to touch any segment. -/
def quickReject (head : Seg) (otherSnake : SnakeQ) : Bool :=
  let otherHead := otherSnake.segments.headI
  let roughDist := |head.x - otherHead.x| + |head.y - otherHead.y|
  let maxLength := (otherSnake.segments.length : ℚ) * GAME_CONFIG.SEGMENT_SPACING
  decide (roughDist > maxLength + 100)

/-- `checkSnakeCollision` of gameUtils.ts: head against a snake's segments.
Self-collision starts at index 25 and tests every segment; the
other-snake test starts at index 1, tests every 2nd segment, and is
preceded by the quick-reject. -/
def checkSnakeCollision (head : Seg) (otherSnake : SnakeQ) (isSelf : Bool) : Bool :=
  let startIndex : ℕ := if isSelf then 25 else 1
  if (if isSelf then false else quickReject head otherSnake) then false
  else
    let step : ℕ := if isSelf then 1 else 2
    (stepIndices startIndex otherSnake.segments.length step).any fun i =>
      let segment := otherSnake.segments.getD i default
      distLt head segment ((head.radius + segment.radius) * collisionMultiplier)

/-- The self-collision branch spelled out. -/
theorem checkSnakeCollision_self (head : Seg) (s : SnakeQ) :
    checkSnakeCollision head s true =
      (stepIndices 25 s.segments.length 1).any fun i =>
        let segment := s.segments.getD i default
        distLt head segment ((head.radius + segment.radius) * collisionMultiplier) := rfl

/-- The other-snake branch spelled out. -/
theorem checkSnakeCollision_other (head : Seg) (s : SnakeQ) :
    checkSnakeCollision head s false =
      if quickReject head s then false
      else (stepIndices 1 s.segments.length 2).any fun i =>
        let segment := s.segments.getD i default
        distLt head segment ((head.radius + segment.radius) * collisionMultiplier) := rfl

end Client

/-! ## The edge-function collision test (game-server/index.ts) -/

namespace Server

/-- `checkSnakeCollision` of game-server/index.ts: no multiplier (raw sum
of the radii), every segment tested, start index 3 when skipping the head
and neck. -/
def checkSnakeCollision (head : Seg) (otherSnake : SnakeQ) (skipHead : Bool) : Bool :=
  let startIndex : ℕ := if skipHead then 3 else 0
  (stepIndices startIndex otherSnake.segments.length 1).any fun i =>
    let segment := otherSnake.segments.getD i default
    distLt head segment (head.radius + segment.radius)

/-- The server self-collision call site (game-server/index.ts lines
357-360): only snakes longer than 20 segments are tested, head against the
snake itself with `skipHead` set. -/
def selfCollides (snake : SnakeQ) : Bool :=
  decide (20 < snake.segments.length) && checkSnakeCollision snake.segments.headI snake true

end Server

/-! ## Spatial hash (gameUtils.ts) -/

def SPATIAL_CELL_SIZE : ℚ := 200

def getCellKey (x y : ℚ) : ℤ × ℤ :=
  (⌊x / SPATIAL_CELL_SIZE⌋, ⌊y / SPATIAL_CELL_SIZE⌋)

/-- The grid: cell key to the ids with a sampled segment in that cell.
Modelled as an association list in insertion order, matching the
insertion-ordered iteration of a JavaScript `Map` of `Set`s. -/
def SpatialHash := List ((ℤ × ℤ) × List String)

/-- Add an id to a cell's set (`cells.get(key).add(id)`), creating the cell
if absent. -/
def hashInsert (cells : SpatialHash) (key : ℤ × ℤ) (id : String) : SpatialHash :=
  match cells with
  | [] => [(key, [id])]
  | (k, ids) :: rest =>
    if k = key then (k, if id ∈ ids then ids else ids ++ [id]) :: rest
    else (k, ids) :: hashInsert rest key id

/-- `buildSpatialHash`: every 5th segment of every live snake is indexed. -/
def buildSpatialHash (snakes : List SnakeQ) : SpatialHash :=
  snakes.foldl
    (fun cells snake =>
      if snake.isAlive = false then cells
      else
        (stepIndices 0 snake.segments.length 5).foldl
          (fun cells i =>
            let seg := snake.segments.getD i default
            hashInsert cells (getCellKey seg.x seg.y) snake.id)
          cells)
    []

def hashLookup (cells : SpatialHash) (key : ℤ × ℤ) : Option (List String) :=
  match cells with
  | [] => none
  | (k, ids) :: rest => if k = key then some ids else hashLookup rest key

/-- `getNearbySnakeIds`: union (in first-encounter order) of the ids of the
5×5 block of cells around the position. -/
def getNearbySnakeIds (hash : SpatialHash) (x y : ℚ) : List String :=
  (List.range 5).foldl
    (fun nearby dxi =>
      (List.range 5).foldl
        (fun nearby dyi =>
          let dx : ℤ := (dxi : ℤ) - 2
          let dy : ℤ := (dyi : ℤ) - 2
          let key := getCellKey (x + (dx : ℚ) * SPATIAL_CELL_SIZE) (y + (dy : ℚ) * SPATIAL_CELL_SIZE)
          match hashLookup hash key with
          | none => nearby
          | some ids => ids.foldl (fun acc id => if id ∈ acc then acc else acc ++ [id]) nearby)
        nearby)
    []

/-! ## Collision resolution (useGameState.ts tick, lines 302-447)

The tick collects pending deaths and kills over the post-movement snapshot
`newSnakes`, then applies them in one pass. `deathReason`/`deathMeta` feed
only a debug log and are omitted. The JavaScript `Set` of processed pair
keys (`[a,b].sort().join('|')`) is modelled as a list of pairs with
orientation-insensitive membership, which recognises exactly the same
pairs. -/

namespace Client

structure CollisionAcc where
  processedPairs : List (String × String)
  deadSnakes : List String
  kills : List (String × String)
  deriving DecidableEq

def pairProcessed (acc : CollisionAcc) (a b : String) : Bool :=
  decide ((a, b) ∈ acc.processedPairs ∨ (b, a) ∈ acc.processedPairs)

/-- `deadSnakes.add id` (set semantics on the list model). -/
def addDead (dead : List String) (id : String) : List String :=
  if id ∈ dead then dead else dead ++ [id]

/-- First pass: snakes whose movement update flagged `hitBorder` die. -/
def borderPass (snakes : List SnakeQ) (acc : CollisionAcc) : CollisionAcc :=
  snakes.foldl
    (fun acc snake =>
      if snake.isAlive = false then acc
      else if snake.hitBorder then { acc with deadSnakes := addDead acc.deadSnakes snake.id }
      else acc)
    acc

/-- Body of the head-to-head inner loop for a fixed outer `snake`. -/
def headToHeadInner (snake : SnakeQ) (acc : CollisionAcc) (other : SnakeQ) : CollisionAcc :=
  if other.id = snake.id ∨ other.isAlive = false ∨ other.id ∈ acc.deadSnakes then acc
  else if pairProcessed acc snake.id other.id then acc
  else
    let acc := { acc with processedPairs := acc.processedPairs ++ [(snake.id, other.id)] }
    let head := snake.segments.headI
    let otherHead := other.segments.headI
    if distLt head otherHead ((head.radius + otherHead.radius) * collisionMultiplier) then
      let sizeDiff := |snake.score - other.score| / max snake.score other.score
      if sizeDiff < 0.1 then
        { acc with deadSnakes := addDead (addDead acc.deadSnakes snake.id) other.id }
      else
        let smallerId := if snake.score < other.score then snake.id else other.id
        let biggerId := if other.score ≤ snake.score then snake.id else other.id
        { acc with deadSnakes := addDead acc.deadSnakes smallerId,
                   kills := acc.kills ++ [(biggerId, smallerId)] }
    else acc

/-- Second pass: head-to-head, each snake against every other, each
unordered pair at most once. A snake already in the pending-dead set is
skipped when its own outer iteration starts (the source checks this once,
on entry). -/
def headToHeadPass (snakes : List SnakeQ) (acc : CollisionAcc) : CollisionAcc :=
  snakes.foldl
    (fun acc snake =>
      if snake.isAlive = false ∨ snake.id ∈ acc.deadSnakes then acc
      else snakes.foldl (headToHeadInner snake) acc)
    acc

/-- The head-to-body inner loop: the first nearby id whose snake is alive,
not pending-dead, and whose body the head hits, kills the attacker and
credits the owner; the loop then breaks. The pending-dead set is not
altered before the break, so the loop is a first-match search. -/
def headToBodyHit (snakes : List SnakeQ) (acc : CollisionAcc) (snake : SnakeQ)
    (otherId : String) : Bool :=
  if otherId = snake.id then false
  else
    match snakes.find? (fun s => s.id = otherId) with
    | none => false
    | some other =>
      if other.isAlive = false ∨ otherId ∈ acc.deadSnakes then false
      else checkSnakeCollision snake.segments.headI other false

/-- Third pass: head-to-body via the spatial hash. -/
def headToBodyPass (snakes : List SnakeQ) (hash : SpatialHash) (acc : CollisionAcc) :
    CollisionAcc :=
  snakes.foldl
    (fun acc snake =>
      if snake.isAlive = false ∨ snake.id ∈ acc.deadSnakes then acc
      else
        let head := snake.segments.headI
        let nearbyIds := getNearbySnakeIds hash head.x head.y
        match nearbyIds.find? (headToBodyHit snakes acc snake) with
        | none => acc
        | some otherId =>
          { acc with deadSnakes := addDead acc.deadSnakes snake.id,
                     kills := acc.kills ++ [(otherId, snake.id)] })
    acc

/-- Apply deaths and kills (lines 417-447): pending-dead snakes are frozen
with their counters untouched; a surviving killer gains one kill per entry
and the victims' (post-movement, pre-death) scores. The loot-collection
activation for bot killers mutates only the bot controller's state, not
the snake, and is modelled with the bot controller. -/
def applyDeathsAndKills (snakes : List SnakeQ) (acc : CollisionAcc) : List SnakeQ :=
  snakes.map fun snake =>
    if snake.id ∈ acc.deadSnakes then { snake with isAlive := false }
    else
      let snakeKills := acc.kills.filter fun k => k.1 = snake.id
      let pointsGained : ℚ := snakeKills.foldl
        (fun sum k => sum + (((snakes.find? (fun s => s.id = k.2)).map SnakeQ.score).getD 0)) 0
      if 0 < snakeKills.length ∨ 0 < pointsGained then
        { snake with kills := snake.kills + snakeKills.length,
                     score := snake.score + pointsGained }
      else snake

/-- The whole collision-resolution phase of a tick, on the post-movement
snapshot: border deaths, then head-to-head, then head-to-body (broad-phase
filtered by the spatial hash), then one atomic application. -/
def collisionPhase (newSnakes : List SnakeQ) : List SnakeQ :=
  let acc1 := borderPass newSnakes ⟨[], [], []⟩
  let hash := buildSpatialHash newSnakes
  let acc2 := headToHeadPass newSnakes acc1
  let acc3 := headToBodyPass newSnakes hash acc2
  applyDeathsAndKills newSnakes acc3

/-! ## Growth step (useGameState.ts lines 281-289; identically
game-server/index.ts lines 325-333)

The two source `while` loops run at most `targetLength` and
`segments.length` iterations respectively, so they are written with that
iteration bound as structural fuel (the guard stops them earlier exactly as
in the source). -/

/-- `while (newSegments.length < targetLength) push({...lastSeg})`. -/
def growLoop (target : ℤ) : ℕ → List Seg → List Seg
  | 0, segs => segs
  | n + 1, segs =>
    if (segs.length : ℤ) < target then
      growLoop target n (segs ++ [(segs.getLast?).getD default])
    else segs

/-- `while (len > targetLength && len > INITIAL_LENGTH) pop()`. -/
def shrinkLoop (target : ℤ) : ℕ → List Seg → List Seg
  | 0, segs => segs
  | n + 1, segs =>
    if target < (segs.length : ℤ) ∧ GAME_CONFIG.INITIAL_LENGTH < segs.length then
      shrinkLoop target n segs.dropLast
    else segs

/-- The per-tick segment-count adjustment: target `Math.floor(newScore)`,
append duplicates of the tail up to the target, then pop from the tail, not
below the minimum initial length. -/
def adjustSegments (score : ℚ) (segs : List Seg) : List Seg :=
  let targetLength : ℤ := ⌊score⌋
  let grown := growLoop targetLength targetLength.toNat segs
  shrinkLoop targetLength grown.length grown

/-! ## Food maintenance (useGameState.ts lines 500-503; identically
game-server/index.ts lines 413-416 with its own target 200)

`createFood()` draws random positions and tiers; the stream of items it
would return is abstracted as `spawn`. The `while` loop appends until the
target count is reached; it runs at most `FOOD_SPAWN_RATE` iterations, used
as structural fuel. -/

def topUpLoop (spawn : ℕ → FoodQ) : ℕ → List FoodQ → List FoodQ
  | 0, food => food
  | n + 1, food =>
    if food.length < GAME_CONFIG.FOOD_SPAWN_RATE then
      topUpLoop spawn n (food ++ [spawn food.length])
    else food

/-- `while (newFood.length < GAME_CONFIG.FOOD_SPAWN_RATE) push(createFood())`. -/
def topUpFood (spawn : ℕ → FoodQ) (food : List FoodQ) : List FoodQ :=
  topUpLoop spawn GAME_CONFIG.FOOD_SPAWN_RATE food

/-! ## The player boost-energy gate (useGameState.ts lines 37-38, 52-54,
69-71 and 177-189, 239) -/

/-- Boost energy starts at 50 both in the per-snake initialisation and as
the `?? 50` default of `getBoostEnergy`. -/
def INITIAL_BOOST_ENERGY : ℚ := 50

/-- Lines 178-189: a commanded boost takes effect when the meter is
strictly positive and the score exceeds `INITIAL_LENGTH`; boosting drains
the meter by 0.5 (floored at 0), otherwise it recharges by 0.1 (capped at
100). Returns (isBoosting, new meter). -/
def playerBoostGate (wantsToBoost : Bool) (boostEnergy score : ℚ) : Bool × ℚ :=
  if wantsToBoost = true ∧ 0 < boostEnergy ∧ (GAME_CONFIG.INITIAL_LENGTH : ℚ) < score then
    (true, max 0 (boostEnergy - 0.5))
  else
    (false, min 100 (boostEnergy + 0.1))

/-- Line 239: `speed = isBoosting ? BOOST_SPEED : BASE_SPEED`. -/
def speedFor (isBoosting : Bool) : ℚ :=
  if isBoosting then GAME_CONFIG.BOOST_SPEED else GAME_CONFIG.BASE_SPEED

end Client

/-! ## Growth-step length lemmas -/

theorem growLoop_length (target : ℤ) :
    ∀ (n : ℕ) (segs : List Seg), target ≤ (segs.length : ℤ) + n →
      (Client.growLoop target n segs).length = max segs.length target.toNat := by
  intro n
  induction n with
  | zero =>
    intro segs h
    rw [Client.growLoop]
    omega
  | succ n ih =>
    intro segs h
    rw [Client.growLoop]
    split_ifs with hlt
    · have hrec := ih (segs ++ [(segs.getLast?).getD default]) (by simp; omega)
      rw [hrec]
      simp
      omega
    · omega

theorem shrinkLoop_length (target : ℤ) :
    ∀ (n : ℕ) (segs : List Seg), segs.length ≤ n →
      (Client.shrinkLoop target n segs).length =
        max (min segs.length GAME_CONFIG.INITIAL_LENGTH) (min segs.length target.toNat) := by
  intro n
  induction n with
  | zero =>
    intro segs h
    rw [Client.shrinkLoop]
    simp [GAME_CONFIG.INITIAL_LENGTH]
    omega
  | succ n ih =>
    intro segs h
    rw [Client.shrinkLoop]
    split_ifs with hcond
    · rw [ih segs.dropLast (by simp [List.length_dropLast]; omega)]
      simp only [List.length_dropLast]
      simp only [GAME_CONFIG.INITIAL_LENGTH] at hcond ⊢
      omega
    · simp only [GAME_CONFIG.INITIAL_LENGTH] at hcond ⊢
      omega

/-- C2: for every live agent, after the growth/shrink step of a tick the
segment count equals `clamp(⌊score⌋, INITIAL_LENGTH, ∞)` — stated as
`max ⌊score⌋.toNat INITIAL_LENGTH` — whenever the score is at least the
minimum (`score ≥ INITIAL_LENGTH` is the engine's score invariant: scores
start at 10 and the boost drain floors at 10). Segments are appended by
duplicating the tail and popped from the tail, never below the minimum
initial length. -/
theorem c2_growth_step_length (score : ℚ) (segs : List Seg)
    (h : 10 ≤ ⌊score⌋) :
    (Client.adjustSegments score segs).length = max ⌊score⌋.toNat GAME_CONFIG.INITIAL_LENGTH := by
  unfold Client.adjustSegments
  rw [shrinkLoop_length _ _ _ le_rfl,
    growLoop_length _ _ _ (by omega)]
  simp only [GAME_CONFIG.INITIAL_LENGTH]
  omega

/-- C2 witness: score 12.5 with 11 segments gives 12 segments. -/
theorem c2_growth_step_witness :
    (10 ≤ ⌊(25 / 2 : ℚ)⌋) ∧
      (Client.adjustSegments (25 / 2) (List.replicate 11 (default : Seg))).length =
        max ⌊(25 / 2 : ℚ)⌋.toNat GAME_CONFIG.INITIAL_LENGTH :=
  ⟨by rw [Int.le_floor]; norm_num,
    c2_growth_step_length (25 / 2) (List.replicate 11 default) (by rw [Int.le_floor]; norm_num)⟩

/-! ## Food-maintenance lemmas -/

theorem topUpLoop_length (spawn : ℕ → FoodQ) :
    ∀ (n : ℕ) (food : List FoodQ), GAME_CONFIG.FOOD_SPAWN_RATE ≤ food.length + n →
      (Client.topUpLoop spawn n food).length = max food.length GAME_CONFIG.FOOD_SPAWN_RATE := by
  intro n
  induction n with
  | zero =>
    intro food h
    rw [Client.topUpLoop]
    omega
  | succ n ih =>
    intro food h
    rw [Client.topUpLoop]
    split_ifs with hlt
    · rw [ih (food ++ [spawn food.length]) (by simp; omega)]
      simp
      omega
    · omega

/-- C4 (amended): after the maintenance step the food count equals
`max(previous count, FOOD_SPAWN_RATE)`: it is never below the target and
reaches exactly the target from any deficit (in particular 50 → 236), but
an excess above the target is not removed. -/
theorem c4_food_topup_amended :
    (∀ (spawn : ℕ → FoodQ) (food : List FoodQ),
        (Client.topUpFood spawn food).length = max food.length GAME_CONFIG.FOOD_SPAWN_RATE) ∧
    (∀ (spawn : ℕ → FoodQ) (food : List FoodQ), food.length ≤ GAME_CONFIG.FOOD_SPAWN_RATE →
        (Client.topUpFood spawn food).length = GAME_CONFIG.FOOD_SPAWN_RATE) ∧
    (∀ (spawn : ℕ → FoodQ) (f : FoodQ),
        (Client.topUpFood spawn (List.replicate 50 f)).length = GAME_CONFIG.FOOD_SPAWN_RATE) := by
  have hmain : ∀ (spawn : ℕ → FoodQ) (food : List FoodQ),
      (Client.topUpFood spawn food).length = max food.length GAME_CONFIG.FOOD_SPAWN_RATE := by
    intro spawn food
    exact topUpLoop_length spawn _ food (by omega)
  refine ⟨hmain, fun spawn food h => ?_, fun spawn f => ?_⟩
  · rw [hmain]; omega
  · rw [hmain]; simp [GAME_CONFIG.FOOD_SPAWN_RATE]

/-- The top-up loop leaves a list already at or over the target alone. -/
theorem topUpLoop_of_full (spawn : ℕ → FoodQ) :
    ∀ (n : ℕ) (food : List FoodQ), GAME_CONFIG.FOOD_SPAWN_RATE ≤ food.length →
      Client.topUpLoop spawn n food = food := by
  intro n
  cases n with
  | zero => intro food _; rw [Client.topUpLoop]
  | succ n =>
    intro food h
    rw [Client.topUpLoop, if_neg (by omega)]

/-- C4 counterexample: 237 food items (one over the target 236, as after a
death drop) survive the maintenance step — the population does not equal
the target. -/
theorem c4_excess_persists_counterexample :
    (Client.topUpFood (fun _ => ⟨"spawned", 0, 0, 1, "#00ff88"⟩)
        (List.replicate 237 ⟨"dropped", 0, 0, 2, "#00ffff"⟩)).length ≠
      GAME_CONFIG.FOOD_SPAWN_RATE := by
  rw [Client.topUpFood,
    topUpLoop_of_full _ _ _ (by rw [List.length_replicate]; norm_num [GAME_CONFIG.FOOD_SPAWN_RATE]),
    List.length_replicate]
  norm_num [GAME_CONFIG.FOOD_SPAWN_RATE]

/-! ## Collision-threshold characterisations (C3, C5)

The client test registers a hit only below `(r₁+r₂) × 0.85`; the server
copy uses the raw sum of the radii. -/

theorem client_hit_facts (head : Seg) (s : SnakeQ) (isSelf : Bool)
    (h : Client.checkSnakeCollision head s isSelf = true) :
    ∃ i, i < s.segments.length ∧ (if isSelf then 25 else 1) ≤ i ∧
      distLt head (s.segments.getD i default)
        ((head.radius + (s.segments.getD i default).radius) * Client.collisionMultiplier) = true := by
  cases isSelf with
  | true =>
    rw [Client.checkSnakeCollision_self, List.any_eq_true] at h
    obtain ⟨i, hmem, hp⟩ := h
    exact ⟨i, mem_stepIndices_upper one_pos hmem, by simpa using mem_stepIndices_lower hmem, hp⟩
  | false =>
    rw [Client.checkSnakeCollision_other] at h
    split_ifs at h
    rw [List.any_eq_true] at h
    obtain ⟨i, hmem, hp⟩ := h
    exact ⟨i, mem_stepIndices_upper (by norm_num) hmem,
      by simpa using mem_stepIndices_lower hmem, hp⟩

theorem server_check_unfold (head : Seg) (s : SnakeQ) (skipHead : Bool) :
    Server.checkSnakeCollision head s skipHead =
      (stepIndices (if skipHead then 3 else 0) s.segments.length 1).any fun i =>
        let segment := s.segments.getD i default
        distLt head segment (head.radius + segment.radius) := rfl

theorem server_hit_iff (head : Seg) (s : SnakeQ) (skipHead : Bool) :
    Server.checkSnakeCollision head s skipHead = true ↔
      ∃ i, (if skipHead then 3 else 0) ≤ i ∧ i < s.segments.length ∧
        distLt head (s.segments.getD i default)
          (head.radius + (s.segments.getD i default).radius) = true := by
  rw [server_check_unfold, List.any_eq_true]
  constructor
  · rintro ⟨i, hmem, hp⟩
    refine ⟨i, mem_stepIndices_lower hmem, mem_stepIndices_upper one_pos hmem, hp⟩
  · rintro ⟨i, hlo, hhi, hp⟩
    exact ⟨i, mem_stepIndices_of one_pos hlo hhi (one_dvd _), hp⟩

/-- C3 (amended): the client's `checkSnakeCollision` registers a hit only
when some tested segment is within `(headRadius + segmentRadius) × 0.85`;
the server's copy registers a hit exactly when some tested segment is
within the raw sum `headRadius + segmentRadius` (no sub-unity factor). -/
theorem c3_collision_threshold_amended :
    (∀ (head : Seg) (s : SnakeQ) (isSelf : Bool),
        Client.checkSnakeCollision head s isSelf = true →
          ∃ i, i < s.segments.length ∧ (if isSelf then 25 else 1) ≤ i ∧
            distLt head (s.segments.getD i default)
              ((head.radius + (s.segments.getD i default).radius) *
                Client.collisionMultiplier) = true) ∧
    (∀ (head : Seg) (s : SnakeQ) (skipHead : Bool),
        Server.checkSnakeCollision head s skipHead = true ↔
          ∃ i, (if skipHead then 3 else 0) ≤ i ∧ i < s.segments.length ∧
            distLt head (s.segments.getD i default)
              (head.radius + (s.segments.getD i default).radius) = true) :=
  ⟨client_hit_facts, server_hit_iff⟩

/-- C3 counterexample: the server test registers a hit between two radius-12
circles at centre distance 22, which is not below `(12+12) × 0.85 = 20.4` —
so the engine's server copy does not use the sub-unity threshold. -/
theorem c3_server_raw_radius_counterexample :
    Server.checkSnakeCollision ⟨0, 0, 12⟩
        ⟨"a", "A", "#ffffff", [⟨22, 0, 12⟩], 0, 3, 10, false, true, 0, false⟩ false = true ∧
      distLt ⟨0, 0, 12⟩ ⟨22, 0, 12⟩ (((12 : ℚ) + 12) * Client.collisionMultiplier) = false := by
  constructor
  · rw [server_hit_iff]
    refine ⟨0, by norm_num, by norm_num, ?_⟩
    show distLt ⟨0, 0, 12⟩ ⟨22, 0, 12⟩ ((12 : ℚ) + 12) = true
    rw [distLt, decide_eq_true_eq]
    constructor <;> norm_num [dist2]
  · rw [distLt, decide_eq_false_iff_not, not_and]
    intro _
    norm_num [dist2, Client.collisionMultiplier]

/-- A 30-segment body bent the way a snake turning at the maximum per-tick
turn rate bends (consecutive gaps at most the 8-unit spacing, heading
change of about 0.15 rad per gap): its head is 23.76… units from
segment 3, inside the server's raw threshold 24 but far outside the client
window. -/
def curvedSnake : SnakeQ :=
  { id := "bot_x", name := "Bot", color := "#00ffff",
    segments :=
      [⟨0, 0, 12⟩, ⟨-7.9, 1.2, 12⟩, ⟨-15.7, 2.5, 12⟩, ⟨-23.4, 4.1, 12⟩,
       ⟨-31.1, 4.1, 12⟩, ⟨-38.8, 4.1, 12⟩, ⟨-46.5, 4.1, 12⟩, ⟨-54.2, 4.1, 12⟩,
       ⟨-61.9, 4.1, 12⟩, ⟨-69.6, 4.1, 12⟩, ⟨-77.3, 4.1, 12⟩, ⟨-85, 4.1, 12⟩,
       ⟨-92.7, 4.1, 12⟩, ⟨-100.4, 4.1, 12⟩, ⟨-108.1, 4.1, 12⟩, ⟨-115.8, 4.1, 12⟩,
       ⟨-123.5, 4.1, 12⟩, ⟨-131.2, 4.1, 12⟩, ⟨-138.9, 4.1, 12⟩, ⟨-146.6, 4.1, 12⟩,
       ⟨-154.3, 4.1, 12⟩, ⟨-162, 4.1, 12⟩, ⟨-169.7, 4.1, 12⟩, ⟨-177.4, 4.1, 12⟩,
       ⟨-185.1, 4.1, 12⟩, ⟨-192.8, 4.1, 12⟩, ⟨-200.5, 4.1, 12⟩, ⟨-208.2, 4.1, 12⟩,
       ⟨-215.9, 4.1, 12⟩, ⟨-223.6, 4.1, 12⟩],
    direction := 0, speed := 3, score := 30, isBoosting := false,
    isAlive := true, kills := 0, hitBorder := false }

theorem distLt_true_iff (p₁ p₂ : Seg) (d : ℚ) :
    distLt p₁ p₂ d = true ↔ 0 < d ∧ dist2 p₁ p₂ < d * d := by
  rw [distLt, decide_eq_true_eq]

theorem distLt_false_iff (p₁ p₂ : Seg) (d : ℚ) :
    distLt p₁ p₂ d = false ↔ ¬(0 < d ∧ dist2 p₁ p₂ < d * d) := by
  rw [distLt, decide_eq_false_iff_not]

/-- C5: both copies test the head only against own-body segments at or
beyond their fixed neck-exclusion window (25 on the client, 3 on the
server — never inside the window); but the server's 3-segment window, at
3 × spacing = 24 = its raw collision threshold, flags a normally-turning
body: the server self-check fires on `curvedSnake` while the client check,
whose window is 25, does not. -/
theorem c5_self_collision_window :
    (∀ (head : Seg) (s : SnakeQ),
        Client.checkSnakeCollision head s true = true ↔
          ∃ i, 25 ≤ i ∧ i < s.segments.length ∧
            distLt head (s.segments.getD i default)
              ((head.radius + (s.segments.getD i default).radius) *
                Client.collisionMultiplier) = true) ∧
    (∀ (s : SnakeQ),
        Server.selfCollides s = true ↔
          20 < s.segments.length ∧ ∃ i, 3 ≤ i ∧ i < s.segments.length ∧
            distLt s.segments.headI (s.segments.getD i default)
              (s.segments.headI.radius + (s.segments.getD i default).radius) = true) ∧
    Server.selfCollides curvedSnake = true ∧
    Client.checkSnakeCollision curvedSnake.segments.headI curvedSnake true = false := by
  have hclient : ∀ (head : Seg) (s : SnakeQ),
      Client.checkSnakeCollision head s true = true ↔
        ∃ i, 25 ≤ i ∧ i < s.segments.length ∧
          distLt head (s.segments.getD i default)
            ((head.radius + (s.segments.getD i default).radius) *
              Client.collisionMultiplier) = true := by
    intro head s
    rw [Client.checkSnakeCollision_self, List.any_eq_true]
    constructor
    · rintro ⟨i, hmem, hp⟩
      exact ⟨i, mem_stepIndices_lower hmem, mem_stepIndices_upper one_pos hmem, hp⟩
    · rintro ⟨i, hlo, hhi, hp⟩
      exact ⟨i, mem_stepIndices_of one_pos hlo hhi (one_dvd _), hp⟩
  have hserver : ∀ (s : SnakeQ),
      Server.selfCollides s = true ↔
        20 < s.segments.length ∧ ∃ i, 3 ≤ i ∧ i < s.segments.length ∧
          distLt s.segments.headI (s.segments.getD i default)
            (s.segments.headI.radius + (s.segments.getD i default).radius) = true := by
    intro s
    rw [Server.selfCollides, Bool.and_eq_true, decide_eq_true_eq, server_hit_iff]
    norm_num
  refine ⟨hclient, hserver, ?_, ?_⟩
  · rw [hserver]
    refine ⟨by norm_num [curvedSnake], 3, by norm_num, by norm_num [curvedSnake], ?_⟩
    show distLt ⟨0, 0, 12⟩ ⟨-23.4, 4.1, 12⟩ ((12 : ℚ) + 12) = true
    rw [distLt_true_iff]
    constructor <;> norm_num [dist2]
  · rw [Bool.eq_false_iff]
    intro hcontra
    rw [hclient] at hcontra
    obtain ⟨i, hlo, hhi, hp⟩ := hcontra
    have hlen : curvedSnake.segments.length = 30 := by norm_num [curvedSnake]
    rw [hlen] at hhi
    rw [distLt_true_iff] at hp
    rw [show curvedSnake.segments.headI = (⟨0, 0, 12⟩ : Seg) from rfl] at hp
    interval_cases i
    · rw [show curvedSnake.segments.getD 25 default = (⟨-192.8, 4.1, 12⟩ : Seg) from rfl] at hp
      obtain ⟨-, hp2⟩ := hp
      norm_num [dist2, Client.collisionMultiplier] at hp2
    · rw [show curvedSnake.segments.getD 26 default = (⟨-200.5, 4.1, 12⟩ : Seg) from rfl] at hp
      obtain ⟨-, hp2⟩ := hp
      norm_num [dist2, Client.collisionMultiplier] at hp2
    · rw [show curvedSnake.segments.getD 27 default = (⟨-208.2, 4.1, 12⟩ : Seg) from rfl] at hp
      obtain ⟨-, hp2⟩ := hp
      norm_num [dist2, Client.collisionMultiplier] at hp2
    · rw [show curvedSnake.segments.getD 28 default = (⟨-215.9, 4.1, 12⟩ : Seg) from rfl] at hp
      obtain ⟨-, hp2⟩ := hp
      norm_num [dist2, Client.collisionMultiplier] at hp2
    · rw [show curvedSnake.segments.getD 29 default = (⟨-223.6, 4.1, 12⟩ : Seg) from rfl] at hp
      obtain ⟨-, hp2⟩ := hp
      norm_num [dist2, Client.collisionMultiplier] at hp2

/-! ## The boost-energy meter (C10) -/

/-- C10: a commanded boost takes effect exactly when the meter is strictly
positive and the score exceeds the minimum; the meter starts at 50 and
stays in 0–100, draining 0.5 per boosting tick and recharging 0.1
otherwise; with the meter at zero the agent moves at base speed even when
boost is commanded and the score is high enough. -/
theorem c10_boost_energy_gate :
    Client.INITIAL_BOOST_ENERGY = 50 ∧
    (∀ (w : Bool) (e s : ℚ), (Client.playerBoostGate w e s).1 = true ↔
        (w = true ∧ 0 < e ∧ (GAME_CONFIG.INITIAL_LENGTH : ℚ) < s)) ∧
    (∀ (w : Bool) (e s : ℚ), (Client.playerBoostGate w e s).1 = true →
        (Client.playerBoostGate w e s).2 = max 0 (e - 0.5)) ∧
    (∀ (w : Bool) (e s : ℚ), (Client.playerBoostGate w e s).1 = false →
        (Client.playerBoostGate w e s).2 = min 100 (e + 0.1)) ∧
    (∀ (w : Bool) (e s : ℚ), 0 ≤ e → e ≤ 100 →
        0 ≤ (Client.playerBoostGate w e s).2 ∧ (Client.playerBoostGate w e s).2 ≤ 100) ∧
    (∀ (w : Bool) (s : ℚ), (Client.playerBoostGate w 0 s).1 = false ∧
        Client.speedFor (Client.playerBoostGate w 0 s).1 = GAME_CONFIG.BASE_SPEED) := by
  refine ⟨rfl, ?_, ?_, ?_, ?_, ?_⟩
  · intro w e s
    unfold Client.playerBoostGate
    split_ifs with h
    · simpa using h
    · simpa using h
  · intro w e s h
    unfold Client.playerBoostGate at *
    split_ifs at h ⊢
    rfl
  · intro w e s h
    unfold Client.playerBoostGate at *
    split_ifs at h ⊢
    rfl
  · intro w e s h0 h100
    unfold Client.playerBoostGate
    split_ifs
    · constructor
      · exact le_max_left _ _
      · rw [max_le_iff]
        constructor <;> linarith
    · constructor
      · rw [le_min_iff]
        constructor <;> linarith
      · exact min_le_left _ _
  · intro w s
    have hgate : (Client.playerBoostGate w 0 s).1 = false := by
      unfold Client.playerBoostGate
      split_ifs with h
      · exact absurd h.2.1 (by norm_num)
      · rfl
    refine ⟨hgate, ?_⟩
    rw [hgate]
    rfl

/-! ## C1: the head-to-head rule -/

/-- C1: for two distinct live agents (neither dead from the border pass)
whose heads lie within the merged-radius threshold, the full collision
phase resolves the pair exactly once: scores within the 10% relative
tolerance kill both with no change to either kill counter or score;
otherwise only the lower-score agent dies and the higher-score agent gains
exactly one kill and exactly the victim's pre-death score. Head-to-head is
resolved before head-to-body (the dead victim is excluded from the
head-to-body pass, which therefore changes nothing here). -/
theorem c1_head_to_head_rule (s1 s2 : SnakeQ) (hid : s1.id ≠ s2.id)
    (h1 : s1.isAlive = true) (h2 : s2.isAlive = true)
    (hb1 : s1.hitBorder = false) (hb2 : s2.hitBorder = false)
    (hdist : distLt s1.segments.headI s2.segments.headI
        ((s1.segments.headI.radius + s2.segments.headI.radius) *
          Client.collisionMultiplier) = true)
    (_hs1 : 0 < s1.score) (_hs2 : 0 < s2.score) :
    (|s1.score - s2.score| / max s1.score s2.score < 0.1 →
        Client.collisionPhase [s1, s2] =
          [{ s1 with isAlive := false }, { s2 with isAlive := false }]) ∧
    (¬(|s1.score - s2.score| / max s1.score s2.score < 0.1) →
      (s1.score < s2.score →
          Client.collisionPhase [s1, s2] =
            [{ s1 with isAlive := false },
             { s2 with kills := s2.kills + 1, score := s2.score + s1.score }]) ∧
      (s2.score < s1.score →
          Client.collisionPhase [s1, s2] =
            [{ s1 with kills := s1.kills + 1, score := s1.score + s2.score },
             { s2 with isAlive := false }])) := by
  have hid' : ¬(s2.id = s1.id) := fun hcon => hid hcon.symm
  have hborder : Client.borderPass [s1, s2] ⟨[], [], []⟩ = ⟨[], [], []⟩ := by
    simp [Client.borderPass, h1, h2, hb1, hb2]
  have hinner11 : Client.headToHeadInner s1 ⟨[], [], []⟩ s1 = ⟨[], [], []⟩ := by
    simp [Client.headToHeadInner]
  constructor
  · -- tolerance: both die, no credit
    intro htol
    have hinner12 : Client.headToHeadInner s1 ⟨[], [], []⟩ s2 =
        ⟨[(s1.id, s2.id)], [s1.id, s2.id], []⟩ := by
      rw [Client.headToHeadInner]
      rw [if_neg (by simp [hid', h2])]
      rw [if_neg (by simp [Client.pairProcessed])]
      simp only [hdist, if_true]
      rw [if_pos htol]
      simp [Client.addDead, hid']
    have hpass : Client.headToHeadPass [s1, s2] ⟨[], [], []⟩ =
        ⟨[(s1.id, s2.id)], [s1.id, s2.id], []⟩ := by
      simp [Client.headToHeadPass, hinner11, hinner12, h1]
    have hbody : Client.headToBodyPass [s1, s2] (buildSpatialHash [s1, s2])
        ⟨[(s1.id, s2.id)], [s1.id, s2.id], []⟩ =
        ⟨[(s1.id, s2.id)], [s1.id, s2.id], []⟩ := by
      simp [Client.headToBodyPass]
    simp [Client.collisionPhase, hborder, hpass, hbody, Client.applyDeathsAndKills]
  · -- outside tolerance
    intro htol
    constructor
    · -- s1 smaller: s1 dies, s2 credited
      intro hlt
      have hinner12 : Client.headToHeadInner s1 ⟨[], [], []⟩ s2 =
          ⟨[(s1.id, s2.id)], [s1.id], [(s2.id, s1.id)]⟩ := by
        rw [Client.headToHeadInner]
        rw [if_neg (by simp [hid', h2])]
        rw [if_neg (by simp [Client.pairProcessed])]
        simp only [hdist, if_true]
        rw [if_neg htol]
        rw [if_pos hlt, if_neg (not_le.mpr hlt)]
        simp [Client.addDead]
      have hacc1 : (⟨[(s1.id, s2.id)], [s1.id], [(s2.id, s1.id)]⟩ : Client.CollisionAcc) =
          ⟨[(s1.id, s2.id)], [s1.id], [(s2.id, s1.id)]⟩ := rfl
      have hinner21 : Client.headToHeadInner s2
          ⟨[(s1.id, s2.id)], [s1.id], [(s2.id, s1.id)]⟩ s1 =
          ⟨[(s1.id, s2.id)], [s1.id], [(s2.id, s1.id)]⟩ := by
        rw [Client.headToHeadInner, if_pos (by simp)]
      have hinner22 : Client.headToHeadInner s2
          ⟨[(s1.id, s2.id)], [s1.id], [(s2.id, s1.id)]⟩ s2 =
          ⟨[(s1.id, s2.id)], [s1.id], [(s2.id, s1.id)]⟩ := by
        rw [Client.headToHeadInner, if_pos (by simp)]
      have hpass : Client.headToHeadPass [s1, s2] ⟨[], [], []⟩ =
          ⟨[(s1.id, s2.id)], [s1.id], [(s2.id, s1.id)]⟩ := by
        simp [Client.headToHeadPass, hinner11, hinner12, hinner21, hinner22, h1, h2, hid']
      have hpred : ∀ x, Client.headToBodyHit [s1, s2]
          ⟨[(s1.id, s2.id)], [s1.id], [(s2.id, s1.id)]⟩ s2 x = false := by
        intro x
        rw [Client.headToBodyHit]
        by_cases hx2 : x = s2.id
        · rw [if_pos hx2]
        · rw [if_neg hx2]
          by_cases hx1 : x = s1.id
          · rw [List.find?_cons_of_pos _ (by simp [hx1])]
            simp [hx1]
          · rw [List.find?_cons_of_neg _ (by simp; exact fun h => hx1 h.symm),
              List.find?_cons_of_neg _ (by simp; exact fun h => hx2 h.symm), List.find?_nil]
      have hnone : ∀ l : List String,
          l.find? (Client.headToBodyHit [s1, s2]
            ⟨[(s1.id, s2.id)], [s1.id], [(s2.id, s1.id)]⟩ s2) = none :=
        fun l => List.find?_eq_none.mpr (fun x _ => by simp [hpred x])
      have hbody : Client.headToBodyPass [s1, s2] (buildSpatialHash [s1, s2])
          ⟨[(s1.id, s2.id)], [s1.id], [(s2.id, s1.id)]⟩ =
          ⟨[(s1.id, s2.id)], [s1.id], [(s2.id, s1.id)]⟩ := by
        simp [Client.headToBodyPass, h2, hid', hnone]
      simp [Client.collisionPhase, hborder, hpass, hbody, Client.applyDeathsAndKills,
        hid, hid']
    · -- s2 smaller: s2 dies, s1 credited
      intro hlt
      have hinner12 : Client.headToHeadInner s1 ⟨[], [], []⟩ s2 =
          ⟨[(s1.id, s2.id)], [s2.id], [(s1.id, s2.id)]⟩ := by
        rw [Client.headToHeadInner]
        rw [if_neg (by simp [hid', h2])]
        rw [if_neg (by simp [Client.pairProcessed])]
        simp only [hdist, if_true]
        rw [if_neg htol]
        rw [if_neg (not_lt.mpr hlt.le), if_pos hlt.le]
        simp [Client.addDead]
      have hpass : Client.headToHeadPass [s1, s2] ⟨[], [], []⟩ =
          ⟨[(s1.id, s2.id)], [s2.id], [(s1.id, s2.id)]⟩ := by
        simp [Client.headToHeadPass, hinner11, hinner12, h1]
      have hpred : ∀ x, Client.headToBodyHit [s1, s2]
          ⟨[(s1.id, s2.id)], [s2.id], [(s1.id, s2.id)]⟩ s1 x = false := by
        intro x
        rw [Client.headToBodyHit]
        by_cases hx1 : x = s1.id
        · rw [if_pos hx1]
        · rw [if_neg hx1]
          by_cases hx2 : x = s2.id
          · rw [List.find?_cons_of_neg _ (by simp; exact fun h => hx1 h.symm),
              List.find?_cons_of_pos _ (by simp [hx2])]
            simp [hx2]
          · rw [List.find?_cons_of_neg _ (by simp; exact fun h => hx1 h.symm),
              List.find?_cons_of_neg _ (by simp; exact fun h => hx2 h.symm), List.find?_nil]
      have hnone : ∀ l : List String,
          l.find? (Client.headToBodyHit [s1, s2]
            ⟨[(s1.id, s2.id)], [s2.id], [(s1.id, s2.id)]⟩ s1) = none :=
        fun l => List.find?_eq_none.mpr (fun x _ => by simp [hpred x])
      have hbody : Client.headToBodyPass [s1, s2] (buildSpatialHash [s1, s2])
          ⟨[(s1.id, s2.id)], [s2.id], [(s1.id, s2.id)]⟩ =
          ⟨[(s1.id, s2.id)], [s2.id], [(s1.id, s2.id)]⟩ := by
        simp [Client.headToBodyPass, h1, hid, hnone]
      simp [Client.collisionPhase, hborder, hpass, hbody, Client.applyDeathsAndKills,
        hid, hid']

/-- The C1 witness pair: scores 100 and 20, heads 10 apart (threshold
20.4). -/
def witnessSnakeA : SnakeQ :=
  { id := "alice", name := "Alice", color := "#00ffff",
    segments := [⟨0, 0, 12⟩, ⟨-8, 0, 12⟩], direction := 0, speed := 3.54,
    score := 100, isBoosting := false, isAlive := true, kills := 2, hitBorder := false }

def witnessSnakeB : SnakeQ :=
  { id := "bob", name := "Bob", color := "#ff00ff",
    segments := [⟨10, 0, 12⟩, ⟨18, 0, 12⟩], direction := 0, speed := 3.54,
    score := 20, isBoosting := false, isAlive := true, kills := 0, hitBorder := false }

/-- C1 witness: at scores 100 and 20 with heads 10 apart, the score-20
agent dies and the other is credited one kill and 20 points. -/
theorem c1_head_to_head_witness :
    Client.collisionPhase [witnessSnakeA, witnessSnakeB] =
      [{ witnessSnakeA with
          kills := witnessSnakeA.kills + 1,
          score := witnessSnakeA.score + witnessSnakeB.score },
       { witnessSnakeB with isAlive := false }] :=
  ((c1_head_to_head_rule witnessSnakeA witnessSnakeB
      (by simp [witnessSnakeA, witnessSnakeB])
      rfl rfl rfl rfl
      (by rw [distLt_true_iff]
          constructor <;>
            norm_num [witnessSnakeA, witnessSnakeB, dist2, Client.collisionMultiplier])
      (by norm_num [witnessSnakeA]) (by norm_num [witnessSnakeB])).2
    (by norm_num [witnessSnakeA, witnessSnakeB])).2
    (by norm_num [witnessSnakeA, witnessSnakeB])

/-- C10 witness: at meter 0 and score 50 a commanded boost is refused and
the speed is the base speed; at meter 50 the gate fires and drains to 49.5. -/
theorem c10_boost_energy_witness :
    ((0 : ℚ) ≤ 50 ∧ (50 : ℚ) ≤ 100) ∧
      (0 ≤ (Client.playerBoostGate true 50 50).2 ∧ (Client.playerBoostGate true 50 50).2 ≤ 100) :=
  ⟨⟨by norm_num, by norm_num⟩,
    c10_boost_energy_gate.2.2.2.2.1 true 50 50 (by norm_num) (by norm_num)⟩

end SkillArena

namespace SkillArena

/-! ## Real-number kinematics layer

The trigonometric parts of the engine (`Math.atan2`, `Math.cos`/`sin`,
`normalizeAngle`, head movement, the body-follow step and the bot
controller) are modelled over `ℝ`. Definitions here are noncomputable
(comparisons on `ℝ` use classical decidability), mirroring the same source
lines as the exact-arithmetic layer where both views exist. -/

/-- `Point`: a plain position. -/
structure PointR where
  x : ℝ
  y : ℝ

/-- `SnakeSegment` over `ℝ`. -/
structure SegR where
  x : ℝ
  y : ℝ
  radius : ℝ

def SegR.pt (s : SegR) : PointR := ⟨s.x, s.y⟩

/-- `distance` of gameUtils.ts / game-server/index.ts. -/
noncomputable def distanceR (p₁ p₂ : PointR) : ℝ :=
  Real.sqrt ((p₂.x - p₁.x) * (p₂.x - p₁.x) + (p₂.y - p₁.y) * (p₂.y - p₁.y))

/-- `Math.atan2(y, x)` (the IEEE branch layout; signed zeros do not exist
in `ℝ`, so the `x = 0` rows merge the ±0 cases). -/
noncomputable def atan2 (y x : ℝ) : ℝ :=
  if 0 < x then Real.arctan (y / x)
  else if x < 0 then
    (if 0 ≤ y then Real.arctan (y / x) + Real.pi else Real.arctan (y / x) - Real.pi)
  else if 0 < y then Real.pi / 2
  else if y < 0 then -(Real.pi / 2)
  else 0

/-- `angleBetween` of gameUtils.ts. -/
noncomputable def angleBetweenR (fromP toP : PointR) : ℝ :=
  atan2 (toP.y - fromP.y) (toP.x - fromP.x)

/-- First loop of `normalizeAngle`: `while (angle > PI) angle -= 2*PI`. -/
noncomputable def subTwoPiLoop (angle : ℝ) : ℝ :=
  if Real.pi < angle then subTwoPiLoop (angle - Real.pi * 2) else angle
termination_by (⌈(angle - Real.pi) / (Real.pi * 2)⌉₊ : ℕ)
decreasing_by
  have hpi : (0 : ℝ) < Real.pi * 2 := by positivity
  have harg : (angle - Real.pi * 2 - Real.pi) / (Real.pi * 2) =
      (angle - Real.pi) / (Real.pi * 2) - 1 := by
    field_simp
    ring
  rw [harg]
  set y : ℝ := (angle - Real.pi) / (Real.pi * 2)
  have hy0 : 0 < y := by
    apply div_pos _ hpi
    linarith
  have h1 : 1 ≤ ⌈y⌉₊ := by
    have := Nat.ceil_pos.mpr hy0
    omega
  have h2 : ⌈y - 1⌉₊ ≤ ⌈y⌉₊ - 1 := by
    apply Nat.ceil_le.mpr
    have hle := Nat.le_ceil y
    push_cast [Nat.cast_sub h1]
    linarith
  omega

/-- Second loop of `normalizeAngle`: `while (angle < -PI) angle += 2*PI`. -/
noncomputable def addTwoPiLoop (angle : ℝ) : ℝ :=
  if angle < -Real.pi then addTwoPiLoop (angle + Real.pi * 2) else angle
termination_by (⌈(-Real.pi - angle) / (Real.pi * 2)⌉₊ : ℕ)
decreasing_by
  have hpi : (0 : ℝ) < Real.pi * 2 := by positivity
  have harg : (-Real.pi - (angle + Real.pi * 2)) / (Real.pi * 2) =
      (-Real.pi - angle) / (Real.pi * 2) - 1 := by
    field_simp
    ring
  rw [harg]
  set y : ℝ := (-Real.pi - angle) / (Real.pi * 2)
  have hy0 : 0 < y := by
    apply div_pos _ hpi
    linarith
  have h1 : 1 ≤ ⌈y⌉₊ := by
    have := Nat.ceil_pos.mpr hy0
    omega
  have h2 : ⌈y - 1⌉₊ ≤ ⌈y⌉₊ - 1 := by
    apply Nat.ceil_le.mpr
    have hle := Nat.le_ceil y
    push_cast [Nat.cast_sub h1]
    linarith
  omega

/-- `normalizeAngle` of gameUtils.ts (and, identically, of
game-server/index.ts): the two `while` loops in sequence. -/
noncomputable def normalizeAngle (angle : ℝ) : ℝ :=
  addTwoPiLoop (subTwoPiLoop angle)

theorem subTwoPiLoop_le (angle : ℝ) : subTwoPiLoop angle ≤ Real.pi := by
  induction angle using subTwoPiLoop.induct with
  | case1 a ha ih =>
    rw [subTwoPiLoop, if_pos ha]
    exact ih
  | case2 a ha =>
    rw [subTwoPiLoop, if_neg ha]
    exact le_of_not_lt ha

theorem addTwoPiLoop_mem : ∀ angle : ℝ, angle ≤ Real.pi →
    -Real.pi ≤ addTwoPiLoop angle ∧ addTwoPiLoop angle ≤ Real.pi := by
  intro angle
  induction angle using addTwoPiLoop.induct with
  | case1 a ha ih =>
    intro _
    rw [addTwoPiLoop, if_pos ha]
    exact ih (by have := Real.pi_pos; linarith)
  | case2 a ha =>
    intro h
    rw [addTwoPiLoop, if_neg ha]
    exact ⟨le_of_not_lt ha, h⟩

/-- The engine's configuration constants, as reals. -/
theorem turn_rate_cast : ((GAME_CONFIG.TURN_RATE : ℚ) : ℝ) = 0.15 := by
  norm_num [GAME_CONFIG.TURN_RATE]

theorem base_speed_cast : ((GAME_CONFIG.BASE_SPEED : ℚ) : ℝ) = 3.54 := by
  norm_num [GAME_CONFIG.BASE_SPEED]

theorem boost_speed_cast : ((GAME_CONFIG.BOOST_SPEED : ℚ) : ℝ) = 7.08 := by
  norm_num [GAME_CONFIG.BOOST_SPEED]

theorem segment_spacing_cast : ((GAME_CONFIG.SEGMENT_SPACING : ℚ) : ℝ) = 8 := by
  norm_num [GAME_CONFIG.SEGMENT_SPACING]

theorem initial_length_cast : ((GAME_CONFIG.INITIAL_LENGTH : ℕ) : ℝ) = 10 := by
  norm_num [GAME_CONFIG.INITIAL_LENGTH]

/-- `Math.sign`. -/
noncomputable def jsSign (x : ℝ) : ℝ :=
  if 0 < x then 1 else if x < 0 then -1 else 0

/-- The smooth-turning step of the tick (useGameState.ts lines 231-236;
identically game-server/index.ts lines 271-276): the normalized signed
difference toward the target angle, clamped to `TURN_RATE`, added to the
heading — with no renormalization of the result. -/
noncomputable def turnToward (direction targetAngle : ℝ) : ℝ :=
  let angleDiff := normalizeAngle (targetAngle - direction)
  let clamped :=
    if |angleDiff| > ((GAME_CONFIG.TURN_RATE : ℚ) : ℝ) then
      jsSign angleDiff * ((GAME_CONFIG.TURN_RATE : ℚ) : ℝ)
    else angleDiff
  direction + clamped

/-- C9 (amended): `normalizeAngle` always lands in the closed interval
`[-π, π]` (the endpoint `-π` is possible, so the half-open `(-π, π]` of the
claim is off by the lower endpoint), and this is the strongest interval:
the heading update `turnToward` adds a clamped delta without
renormalizing, so stored headings can leave any such interval. -/
theorem c9_normalize_angle_closed_interval (angle : ℝ) :
    normalizeAngle angle ∈ Set.Icc (-Real.pi) Real.pi := by
  have h := addTwoPiLoop_mem (subTwoPiLoop angle) (subTwoPiLoop_le angle)
  exact ⟨h.1, h.2⟩

/-- C9 counterexample: `normalizeAngle (-π) = -π`, which is not in the
claimed half-open interval `(-π, π]`; and the heading update at heading 3
with target angle 3.2 yields 3.15 > π, so the update does not preserve
normalization either. -/
theorem c9_normalize_angle_counterexample :
    (normalizeAngle (-Real.pi) = -Real.pi ∧ -Real.pi ∉ Set.Ioc (-Real.pi) Real.pi) ∧
    (turnToward 3 3.2 = 3.15 ∧ (3.15 : ℝ) ∉ Set.Ioc (-Real.pi) Real.pi) := by
  have hpi := Real.pi_pos
  constructor
  · constructor
    · rw [normalizeAngle, subTwoPiLoop, if_neg (by linarith), addTwoPiLoop,
        if_neg (lt_irrefl _)]
    · simp [Set.mem_Ioc]
  · constructor
    · have hnorm : normalizeAngle ((3.2 : ℝ) - 3) = 0.2 := by
        have h3 : (3.2 : ℝ) - 3 = 0.2 := by norm_num
        rw [h3, normalizeAngle, subTwoPiLoop,
          if_neg (by push_neg; linarith [Real.pi_gt_three]), addTwoPiLoop,
          if_neg (by push_neg; linarith)]
      rw [turnToward]
      simp only [hnorm, turn_rate_cast]
      rw [if_pos (by rw [abs_of_pos (by norm_num)]; norm_num), jsSign,
        if_pos (by norm_num)]
      norm_num
    · simp only [Set.mem_Ioc, not_and_or, not_le]
      right
      linarith [Real.pi_lt_d2]

/-! ## The player movement step (useGameState.ts lines 173-260) -/

/-- Lines 178-189 over `ℝ` (the same gate as `Client.playerBoostGate`):
boost fires only with positive meter and score above the minimum. -/
noncomputable def playerBoostGateR (wantsToBoost : Bool) (boostEnergy score : ℝ) : Bool × ℝ :=
  if wantsToBoost = true ∧ 0 < boostEnergy ∧ ((GAME_CONFIG.INITIAL_LENGTH : ℕ) : ℝ) < score then
    (true, max 0 (boostEnergy - 0.5))
  else (false, min 100 (boostEnergy + 0.1))

/-- Lines 244-248: the head advances `speed` units along the new heading. -/
noncomputable def moveHead (head : SegR) (newDirection speed : ℝ) : SegR :=
  ⟨head.x + Real.cos newDirection * speed, head.y + Real.sin newDirection * speed,
    ((GAME_CONFIG.SEGMENT_RADIUS : ℚ) : ℝ)⟩

/-- Lines 251-254: the out-of-bounds test for the new head. -/
noncomputable def hitsBorder (h : SegR) : Bool :=
  decide (h.x < ((GAME_CONFIG.SEGMENT_RADIUS : ℚ) : ℝ) ∨
    h.x > ((GAME_CONFIG.MAP_WIDTH : ℚ) : ℝ) - ((GAME_CONFIG.SEGMENT_RADIUS : ℚ) : ℝ) ∨
    h.y < ((GAME_CONFIG.SEGMENT_RADIUS : ℚ) : ℝ) ∨
    h.y > ((GAME_CONFIG.MAP_HEIGHT : ℚ) : ℝ) - ((GAME_CONFIG.SEGMENT_RADIUS : ℚ) : ℝ))

/-- Lines 256-260: clamp the head to the playable rectangle for the final
frame before the border death. -/
noncomputable def clampToBorder (h : SegR) : SegR :=
  ⟨max ((GAME_CONFIG.SEGMENT_RADIUS : ℚ) : ℝ)
      (min (((GAME_CONFIG.MAP_WIDTH : ℚ) : ℝ) - ((GAME_CONFIG.SEGMENT_RADIUS : ℚ) : ℝ)) h.x),
   max ((GAME_CONFIG.SEGMENT_RADIUS : ℚ) : ℝ)
      (min (((GAME_CONFIG.MAP_HEIGHT : ℚ) : ℝ) - ((GAME_CONFIG.SEGMENT_RADIUS : ℚ) : ℝ)) h.y),
   h.radius⟩

/-- The result of one player movement update. -/
structure PlayerMoveOut where
  direction : ℝ
  speed : ℝ
  score : ℝ
  head : SegR
  isBoosting : Bool
  boostEnergy : ℝ
  hitBorder : Bool

/-- The player branch of the tick movement update (useGameState.ts lines
173-260): target angle from the commanded point, the boost/energy gate,
clamped turning, speed selection, score drain floored at the minimum, head
displacement, and the border flag/clamp. -/
noncomputable def playerMoveStep (head : SegR) (direction score boostEnergy : ℝ)
    (targetX targetY : ℝ) (wantsToBoost : Bool) : PlayerMoveOut :=
  let targetAngle := angleBetweenR head.pt ⟨targetX, targetY⟩
  let g := playerBoostGateR wantsToBoost boostEnergy score
  let newDirection := turnToward direction targetAngle
  let speed := if g.1 then ((GAME_CONFIG.BOOST_SPEED : ℚ) : ℝ)
    else ((GAME_CONFIG.BASE_SPEED : ℚ) : ℝ)
  let newScore := if g.1 then max ((GAME_CONFIG.INITIAL_LENGTH : ℕ) : ℝ) (score - 0.1)
    else score
  let nh := moveHead head newDirection speed
  let hb := hitsBorder nh
  ⟨newDirection, speed, newScore, if hb then clampToBorder nh else nh, g.1, g.2, hb⟩

/-- C6: one human agent at the arena centre heading 0, boost commanded,
score 50 (above the minimum 10), meter at its initial 50, target straight
ahead: after one tick the speed is the boost constant, the score drops by
exactly the drain 0.1 to 49.9, and the head moves exactly `BOOST_SPEED`
units along heading 0. Moreover boosting is permitted only when the score
exceeds the minimum: any step that reports `isBoosting` had
`score > INITIAL_LENGTH`. -/
theorem c6_boost_tick_scenario :
    ((playerMoveStep ⟨2500, 2500, 12⟩ 0 50 50 3500 2500 true).speed =
        ((GAME_CONFIG.BOOST_SPEED : ℚ) : ℝ) ∧
      (playerMoveStep ⟨2500, 2500, 12⟩ 0 50 50 3500 2500 true).score = 50 - 0.1 ∧
      (playerMoveStep ⟨2500, 2500, 12⟩ 0 50 50 3500 2500 true).head.x =
        2500 + ((GAME_CONFIG.BOOST_SPEED : ℚ) : ℝ) ∧
      (playerMoveStep ⟨2500, 2500, 12⟩ 0 50 50 3500 2500 true).head.y = 2500 ∧
      (playerMoveStep ⟨2500, 2500, 12⟩ 0 50 50 3500 2500 true).direction = 0 ∧
      (playerMoveStep ⟨2500, 2500, 12⟩ 0 50 50 3500 2500 true).isBoosting = true) ∧
    (∀ (head : SegR) (direction score boostEnergy targetX targetY : ℝ) (w : Bool),
        (playerMoveStep head direction score boostEnergy targetX targetY w).isBoosting =
            true →
          ((GAME_CONFIG.INITIAL_LENGTH : ℕ) : ℝ) < score) := by
  have hbs := boost_speed_cast
  constructor
  · have htarget : angleBetweenR (SegR.pt ⟨2500, 2500, 12⟩) ⟨3500, 2500⟩ = 0 := by
      rw [angleBetweenR, SegR.pt]
      show atan2 (2500 - 2500) (3500 - 2500) = 0
      rw [atan2, if_pos (by norm_num)]
      norm_num [Real.arctan_zero]
    have hgate : playerBoostGateR true 50 50 = (true, max 0 (50 - 0.5)) := by
      rw [playerBoostGateR, if_pos ⟨rfl, by norm_num, by rw [initial_length_cast]; norm_num⟩]
    have hturn : turnToward 0 0 = 0 := by
      have hnorm : normalizeAngle ((0 : ℝ) - 0) = 0 := by
        rw [show (0 : ℝ) - 0 = 0 by norm_num, normalizeAngle, subTwoPiLoop,
          if_neg (by push_neg; linarith [Real.pi_pos]), addTwoPiLoop,
          if_neg (by push_neg; linarith [Real.pi_pos])]
      rw [turnToward]
      simp only [hnorm, turn_rate_cast]
      rw [if_neg (by rw [abs_zero]; norm_num)]
      norm_num
    have hnh : moveHead ⟨2500, 2500, 12⟩ 0 ((GAME_CONFIG.BOOST_SPEED : ℚ) : ℝ) =
        ⟨2500 + ((GAME_CONFIG.BOOST_SPEED : ℚ) : ℝ), 2500, ((GAME_CONFIG.SEGMENT_RADIUS : ℚ) : ℝ)⟩ := by
      rw [moveHead]
      simp [Real.cos_zero, Real.sin_zero]
    have hnoborder : hitsBorder ⟨2500 + ((GAME_CONFIG.BOOST_SPEED : ℚ) : ℝ), 2500,
        ((GAME_CONFIG.SEGMENT_RADIUS : ℚ) : ℝ)⟩ = false := by
      rw [hitsBorder, decide_eq_false_iff_not]
      push_neg
      norm_num [GAME_CONFIG.MAP_WIDTH, GAME_CONFIG.MAP_HEIGHT, GAME_CONFIG.SEGMENT_RADIUS,
        hbs]
    have hmax : max ((GAME_CONFIG.INITIAL_LENGTH : ℕ) : ℝ) ((50 : ℝ) - 0.1) = 50 - 0.1 := by
      rw [initial_length_cast]
      exact max_eq_right (by norm_num)
    rw [playerMoveStep]
    simp [htarget, hgate, hturn, hnh, hnoborder, hmax]
  · intro head direction score boostEnergy targetX targetY w h
    have h' : (playerBoostGateR w boostEnergy score).1 = true := h
    rw [playerBoostGateR] at h'
    split_ifs at h' with hg
    exact hg.2.2


/-! ## The body-follow step (useGameState.ts lines 262-279; identically
game-server/index.ts lines 306-323) -/

theorem sqrt_pos_of_ne (u v : ℝ) (h : ¬(u = 0 ∧ v = 0)) :
    0 < Real.sqrt (u * u + v * v) := by
  apply Real.sqrt_pos.mpr
  rcases not_and_or.mp h with hu | hv
  · have := mul_self_pos.mpr hu
    nlinarith [mul_self_nonneg v]
  · have := mul_self_pos.mpr hv
    nlinarith [mul_self_nonneg u]

/-- `Math.cos` of `Math.atan2(y, x)` is the unit x-component. -/
theorem cos_atan2 (y x : ℝ) (h : ¬(x = 0 ∧ y = 0)) :
    Real.cos (atan2 y x) = x / Real.sqrt (x * x + y * y) := by
  have hr : 0 < Real.sqrt (x * x + y * y) := sqrt_pos_of_ne x y h
  rw [atan2]
  split_ifs with hx1 hx2 hy1 hy2 hy3
  · -- 0 < x
    have hx0 : x ≠ 0 := ne_of_gt hx1
    rw [Real.cos_arctan,
      show 1 + (y / x) ^ 2 = (x * x + y * y) / x ^ 2 by field_simp; ring,
      Real.sqrt_div (by nlinarith [mul_self_nonneg x, mul_self_nonneg y]),
      Real.sqrt_sq hx1.le, one_div_div]
  · -- x < 0, 0 ≤ y
    have hx0 : x ≠ 0 := ne_of_lt hx2
    rw [Real.cos_add_pi, Real.cos_arctan,
      show 1 + (y / x) ^ 2 = (x * x + y * y) / x ^ 2 by field_simp; ring,
      Real.sqrt_div (by nlinarith [mul_self_nonneg x, mul_self_nonneg y]),
      Real.sqrt_sq_eq_abs, abs_of_neg hx2, one_div_div]
    field_simp
  · -- x < 0, y < 0
    have hx0 : x ≠ 0 := ne_of_lt hx2
    rw [Real.cos_sub_pi, Real.cos_arctan,
      show 1 + (y / x) ^ 2 = (x * x + y * y) / x ^ 2 by field_simp; ring,
      Real.sqrt_div (by nlinarith [mul_self_nonneg x, mul_self_nonneg y]),
      Real.sqrt_sq_eq_abs, abs_of_neg hx2, one_div_div]
    field_simp
  · -- x = 0, 0 < y
    have hx0 : x = 0 := le_antisymm (not_lt.mp hx1) (not_lt.mp hx2)
    rw [Real.cos_pi_div_two, hx0, zero_div]
  · -- x = 0, y < 0
    have hx0 : x = 0 := le_antisymm (not_lt.mp hx1) (not_lt.mp hx2)
    rw [Real.cos_neg, Real.cos_pi_div_two, hx0, zero_div]
  · -- x = 0, y = 0: excluded
    exact absurd ⟨le_antisymm (not_lt.mp hx1) (not_lt.mp hx2),
      le_antisymm (not_lt.mp hy2) (not_lt.mp hy3)⟩ h

/-- `Math.sin` of `Math.atan2(y, x)` is the unit y-component. -/
theorem sin_atan2 (y x : ℝ) (h : ¬(x = 0 ∧ y = 0)) :
    Real.sin (atan2 y x) = y / Real.sqrt (x * x + y * y) := by
  have hr : 0 < Real.sqrt (x * x + y * y) := sqrt_pos_of_ne x y h
  rw [atan2]
  split_ifs with hx1 hx2 hy1 hy2 hy3
  · have hx0 : x ≠ 0 := ne_of_gt hx1
    rw [Real.sin_arctan,
      show 1 + (y / x) ^ 2 = (x * x + y * y) / x ^ 2 by field_simp; ring,
      Real.sqrt_div (by nlinarith [mul_self_nonneg x, mul_self_nonneg y]),
      Real.sqrt_sq hx1.le]
    field_simp
  · have hx0 : x ≠ 0 := ne_of_lt hx2
    rw [Real.sin_add_pi, Real.sin_arctan,
      show 1 + (y / x) ^ 2 = (x * x + y * y) / x ^ 2 by field_simp; ring,
      Real.sqrt_div (by nlinarith [mul_self_nonneg x, mul_self_nonneg y]),
      Real.sqrt_sq_eq_abs, abs_of_neg hx2]
    field_simp
    ring
  · have hx0 : x ≠ 0 := ne_of_lt hx2
    rw [Real.sin_sub_pi, Real.sin_arctan,
      show 1 + (y / x) ^ 2 = (x * x + y * y) / x ^ 2 by field_simp; ring,
      Real.sqrt_div (by nlinarith [mul_self_nonneg x, mul_self_nonneg y]),
      Real.sqrt_sq_eq_abs, abs_of_neg hx2]
    field_simp
    ring
  · have hx0 : x = 0 := le_antisymm (not_lt.mp hx1) (not_lt.mp hx2)
    rw [Real.sin_pi_div_two, hx0]
    rw [show (0 : ℝ) * 0 + y * y = y * y by ring, Real.sqrt_mul_self_eq_abs,
      abs_of_pos hy2, div_self (ne_of_gt hy2)]
  · have hx0 : x = 0 := le_antisymm (not_lt.mp hx1) (not_lt.mp hx2)
    rw [Real.sin_neg, Real.sin_pi_div_two, hx0]
    rw [show (0 : ℝ) * 0 + y * y = y * y by ring, Real.sqrt_mul_self_eq_abs,
      abs_of_neg hy3, div_neg, div_self (ne_of_lt hy3)]
  · exact absurd ⟨le_antisymm (not_lt.mp hx1) (not_lt.mp hx2),
      le_antisymm (not_lt.mp hy2) (not_lt.mp hy3)⟩ h

theorem distanceR_nonneg (p q : PointR) : 0 ≤ distanceR p q := Real.sqrt_nonneg _

theorem distanceR_self (p : PointR) : distanceR p p = 0 := by
  rw [distanceR]
  simp

theorem distanceR_eq_abs (p q : PointR) :
    distanceR p q = Complex.abs ((⟨q.x, q.y⟩ : ℂ) - (⟨p.x, p.y⟩ : ℂ)) := by
  rw [distanceR, Complex.abs_apply,
    show ((⟨q.x, q.y⟩ : ℂ) - (⟨p.x, p.y⟩ : ℂ)) = (⟨q.x - p.x, q.y - p.y⟩ : ℂ) by
      apply Complex.ext <;> simp,
    Complex.normSq_mk]

theorem distanceR_comm (p q : PointR) : distanceR p q = distanceR q p := by
  rw [distanceR, distanceR]
  ring_nf

theorem distanceR_triangle (a b c : PointR) :
    distanceR a c ≤ distanceR a b + distanceR b c := by
  rw [distanceR_eq_abs a c, distanceR_eq_abs a b, distanceR_eq_abs b c]
  have h := Complex.abs.sub_le (⟨c.x, c.y⟩ : ℂ) (⟨b.x, b.y⟩ : ℂ) (⟨a.x, a.y⟩ : ℂ)
  linarith

/-- The loop body of the follow-the-leader update (lines 264-279): a
trailing segment farther than the spacing from its (already moved)
predecessor is placed exactly one spacing unit behind the predecessor
along the line from itself to the predecessor; otherwise it is copied
unchanged. -/
noncomputable def followSegmentStep (prevSeg currSeg : SegR) : SegR :=
  if distanceR prevSeg.pt currSeg.pt > ((GAME_CONFIG.SEGMENT_SPACING : ℚ) : ℝ) then
    let angle := angleBetweenR currSeg.pt prevSeg.pt
    ⟨prevSeg.x - Real.cos angle * ((GAME_CONFIG.SEGMENT_SPACING : ℚ) : ℝ),
     prevSeg.y - Real.sin angle * ((GAME_CONFIG.SEGMENT_SPACING : ℚ) : ℝ),
     ((GAME_CONFIG.SEGMENT_RADIUS : ℚ) : ℝ)⟩
  else currSeg

/-- The whole follow loop (lines 263-279): each trailing segment follows
the segment just produced before it, starting from the new head. -/
noncomputable def followSegments (newHead : SegR) (segments : List SegR) : List SegR :=
  (segments.drop 1).foldl
    (fun newSegments currSeg =>
      newSegments ++ [followSegmentStep ((newSegments.getLast?).getD newHead) currSeg])
    [newHead]

theorem SegR.pt_mk (x y r : ℝ) : SegR.pt ⟨x, y, r⟩ = ⟨x, y⟩ := rfl

theorem distanceR_mk (ax ay bx bY : ℝ) :
    distanceR ⟨ax, ay⟩ ⟨bx, bY⟩ =
      Real.sqrt ((bx - ax) * (bx - ax) + (bY - ay) * (bY - ay)) := rfl

/-- Algebraic core of the follow step: moving a point at distance
`d = √(u² + v²) > S` from the target by `S` along the unit vector
`(u/d, v/d)` puts it at distance exactly `S`, travelling `d - S`. -/
theorem moved_geometry (u v S : ℝ) (hSpos : 0 < S)
    (h : S < Real.sqrt (u * u + v * v)) :
    Real.sqrt (u / Real.sqrt (u * u + v * v) * S * (u / Real.sqrt (u * u + v * v) * S) +
        v / Real.sqrt (u * u + v * v) * S * (v / Real.sqrt (u * u + v * v) * S)) = S ∧
    Real.sqrt ((u - u / Real.sqrt (u * u + v * v) * S) *
          (u - u / Real.sqrt (u * u + v * v) * S) +
        (v - v / Real.sqrt (u * u + v * v) * S) *
          (v - v / Real.sqrt (u * u + v * v) * S)) =
      Real.sqrt (u * u + v * v) - S := by
  set d := Real.sqrt (u * u + v * v) with hddef
  have hdpos : 0 < d := lt_trans hSpos h
  have hdne : d ≠ 0 := ne_of_gt hdpos
  have hd2 : d * d = u * u + v * v :=
    Real.mul_self_sqrt (add_nonneg (mul_self_nonneg u) (mul_self_nonneg v))
  constructor
  · rw [show u / d * S * (u / d * S) + v / d * S * (v / d * S) = S * S by
      field_simp
      linear_combination (-(S * S)) * hd2]
    exact Real.sqrt_mul_self hSpos.le
  · rw [show (u - u / d * S) * (u - u / d * S) + (v - v / d * S) * (v - v / d * S) =
        (d - S) * (d - S) by
      field_simp
      linear_combination (-((d - S) * (d - S))) * hd2]
    exact Real.sqrt_mul_self (by linarith)

/-- C7: the body-follow step moves a trailing segment exactly when its gap
to the moved predecessor exceeds the fixed spacing; when it moves it lands
exactly one spacing unit from the predecessor, having travelled exactly
`gap - spacing`; and whenever the segment was within one spacing unit of
the predecessor's previous position, its travel is bounded by the
predecessor's own travel — so no segment ever overshoots (it never moves
more than its predecessor, which moves at most one boost-speed step of
7.08 < 8 per tick). -/
theorem c7_body_follow_step (prevSeg currSeg : SegR) :
    (¬(distanceR prevSeg.pt currSeg.pt > ((GAME_CONFIG.SEGMENT_SPACING : ℚ) : ℝ)) →
        followSegmentStep prevSeg currSeg = currSeg) ∧
    (distanceR prevSeg.pt currSeg.pt > ((GAME_CONFIG.SEGMENT_SPACING : ℚ) : ℝ) →
        distanceR (followSegmentStep prevSeg currSeg).pt prevSeg.pt =
          ((GAME_CONFIG.SEGMENT_SPACING : ℚ) : ℝ) ∧
        distanceR currSeg.pt (followSegmentStep prevSeg currSeg).pt =
          distanceR prevSeg.pt currSeg.pt - ((GAME_CONFIG.SEGMENT_SPACING : ℚ) : ℝ)) ∧
    (∀ prevOld : PointR,
        distanceR prevOld currSeg.pt ≤ ((GAME_CONFIG.SEGMENT_SPACING : ℚ) : ℝ) →
          distanceR currSeg.pt (followSegmentStep prevSeg currSeg).pt ≤
            distanceR prevOld prevSeg.pt) := by
  obtain ⟨px, py, pr⟩ := prevSeg
  obtain ⟨cx, cy, cr⟩ := currSeg
  have hS : ((GAME_CONFIG.SEGMENT_SPACING : ℚ) : ℝ) = 8 := segment_spacing_cast
  have hSpos : (0 : ℝ) < ((GAME_CONFIG.SEGMENT_SPACING : ℚ) : ℝ) := by
    rw [hS]; norm_num
  have hd_eq : distanceR (⟨px, py⟩ : PointR) (⟨cx, cy⟩ : PointR) =
      Real.sqrt ((px - cx) * (px - cx) + (py - cy) * (py - cy)) := by
    rw [distanceR_mk]
    congr 1
    ring
  have hmain : distanceR (SegR.pt ⟨px, py, pr⟩) (SegR.pt ⟨cx, cy, cr⟩) >
        ((GAME_CONFIG.SEGMENT_SPACING : ℚ) : ℝ) →
      distanceR (followSegmentStep ⟨px, py, pr⟩ ⟨cx, cy, cr⟩).pt (SegR.pt ⟨px, py, pr⟩) =
        ((GAME_CONFIG.SEGMENT_SPACING : ℚ) : ℝ) ∧
      distanceR (SegR.pt ⟨cx, cy, cr⟩) (followSegmentStep ⟨px, py, pr⟩ ⟨cx, cy, cr⟩).pt =
        distanceR (SegR.pt ⟨px, py, pr⟩) (SegR.pt ⟨cx, cy, cr⟩) -
          ((GAME_CONFIG.SEGMENT_SPACING : ℚ) : ℝ) := by
    intro h
    have hgt : ((GAME_CONFIG.SEGMENT_SPACING : ℚ) : ℝ) <
        Real.sqrt ((px - cx) * (px - cx) + (py - cy) * (py - cy)) := by
      rw [← hd_eq]
      exact h
    have hne : ¬(px - cx = 0 ∧ py - cy = 0) := by
      rintro ⟨h1, h2⟩
      rw [h1, h2, show Real.sqrt ((0 : ℝ) * 0 + 0 * 0) = 0 by simp] at hgt
      linarith
    have hcos : Real.cos (angleBetweenR (SegR.pt ⟨cx, cy, cr⟩) (SegR.pt ⟨px, py, pr⟩)) =
        (px - cx) / Real.sqrt ((px - cx) * (px - cx) + (py - cy) * (py - cy)) := by
      show Real.cos (atan2 (py - cy) (px - cx)) = _
      exact cos_atan2 (py - cy) (px - cx) hne
    have hsin : Real.sin (angleBetweenR (SegR.pt ⟨cx, cy, cr⟩) (SegR.pt ⟨px, py, pr⟩)) =
        (py - cy) / Real.sqrt ((px - cx) * (px - cx) + (py - cy) * (py - cy)) := by
      show Real.sin (atan2 (py - cy) (px - cx)) = _
      exact sin_atan2 (py - cy) (px - cx) hne
    have hstep : followSegmentStep ⟨px, py, pr⟩ ⟨cx, cy, cr⟩ =
        ⟨px - (px - cx) / Real.sqrt ((px - cx) * (px - cx) + (py - cy) * (py - cy)) *
            ((GAME_CONFIG.SEGMENT_SPACING : ℚ) : ℝ),
          py - (py - cy) / Real.sqrt ((px - cx) * (px - cx) + (py - cy) * (py - cy)) *
            ((GAME_CONFIG.SEGMENT_SPACING : ℚ) : ℝ),
          ((GAME_CONFIG.SEGMENT_RADIUS : ℚ) : ℝ)⟩ := by
      simp only [followSegmentStep]
      rw [if_pos h, hcos, hsin]
    obtain ⟨g1, g2⟩ := moved_geometry (px - cx) (py - cy)
      ((GAME_CONFIG.SEGMENT_SPACING : ℚ) : ℝ) hSpos hgt
    constructor
    · rw [hstep, SegR.pt_mk, SegR.pt_mk, distanceR_mk]
      refine Eq.trans ?_ g1
      congr 1
      ring
    · rw [hstep, SegR.pt_mk, SegR.pt_mk, SegR.pt_mk, hd_eq, distanceR_mk]
      refine Eq.trans ?_ g2
      congr 1
      ring
  refine ⟨?_, hmain, ?_⟩
  · intro h
    rw [followSegmentStep, if_neg h]
  · intro prevOld hold
    by_cases h : distanceR (SegR.pt ⟨px, py, pr⟩) (SegR.pt ⟨cx, cy, cr⟩) >
        ((GAME_CONFIG.SEGMENT_SPACING : ℚ) : ℝ)
    · have h2 := (hmain h).2
      rw [h2]
      have htri : distanceR (SegR.pt ⟨px, py, pr⟩) (SegR.pt ⟨cx, cy, cr⟩) ≤
          distanceR (SegR.pt ⟨px, py, pr⟩) prevOld +
            distanceR prevOld (SegR.pt ⟨cx, cy, cr⟩) :=
        distanceR_triangle _ _ _
      have hcomm : distanceR (SegR.pt ⟨px, py, pr⟩) prevOld =
          distanceR prevOld (SegR.pt ⟨px, py, pr⟩) :=
        distanceR_comm _ _
      linarith
    · rw [followSegmentStep, if_neg h, distanceR_self]
      exact distanceR_nonneg _ _

/-- C7 witness: predecessor at (10, 0), segment at the origin, gap 10 > 8:
the segment moves to distance exactly 8 from the predecessor, travelling
exactly 10 - 8 = 2. -/
theorem c7_body_follow_witness :
    distanceR (SegR.pt ⟨10, 0, 12⟩) (SegR.pt ⟨0, 0, 12⟩) >
        ((GAME_CONFIG.SEGMENT_SPACING : ℚ) : ℝ) ∧
      distanceR (followSegmentStep ⟨10, 0, 12⟩ ⟨0, 0, 12⟩).pt (SegR.pt ⟨10, 0, 12⟩) =
        ((GAME_CONFIG.SEGMENT_SPACING : ℚ) : ℝ) ∧
      distanceR (SegR.pt ⟨0, 0, 12⟩) (followSegmentStep ⟨10, 0, 12⟩ ⟨0, 0, 12⟩).pt =
        distanceR (SegR.pt ⟨10, 0, 12⟩) (SegR.pt ⟨0, 0, 12⟩) -
          ((GAME_CONFIG.SEGMENT_SPACING : ℚ) : ℝ) := by
  have hd : distanceR (SegR.pt ⟨10, 0, 12⟩) (SegR.pt ⟨0, 0, 12⟩) > 
      ((GAME_CONFIG.SEGMENT_SPACING : ℚ) : ℝ) := by
    rw [distanceR, SegR.pt, SegR.pt, segment_spacing_cast]
    rw [show ((0 : ℝ) - 10) * ((0 : ℝ) - 10) + ((0 : ℝ) - 0) * ((0 : ℝ) - 0) = 10 * 10 by
      norm_num]
    rw [Real.sqrt_mul_self (by norm_num)]
    norm_num
  exact ⟨hd, (c7_body_follow_step ⟨10, 0, 12⟩ ⟨0, 0, 12⟩).2.1 hd⟩

/-! ## Bot AI (botAI.ts)

The bot controller `calculateBotMove` and its helpers.  `Math.random()` is
modelled by an arbitrary stream `rand : ℕ → ℝ` read at an explicit cursor
`k` that advances exactly when the source calls `Math.random()` (JavaScript
`&&`/`||` short-circuiting decides whether a call happens).  `Date.now()`
is the parameter `now`.  JavaScript `Infinity` initialisers are modelled
with `Option` (`none` = `Infinity` for minima, `none` = `-Infinity` for
best-score accumulators).  The in-place mutation of `botState` is modelled
by returning the updated state in the result record. -/

namespace BotAI

/-- `String.startsWith`, expressed as a character-prefix test (so that it
reduces on literals). -/
def strStartsWith (s p : String) : Bool := p.data.isPrefixOf s.data

theorem map_width_cast : ((GAME_CONFIG.MAP_WIDTH : ℚ) : ℝ) = 5000 := by
  norm_num [GAME_CONFIG.MAP_WIDTH]

theorem map_height_cast : ((GAME_CONFIG.MAP_HEIGHT : ℚ) : ℝ) = 5000 := by
  norm_num [GAME_CONFIG.MAP_HEIGHT]

/-- `SerializedSnake` over `ℝ`. -/
structure SnakeR where
  id : String
  name : String
  color : String
  segments : List SegR
  direction : ℝ
  speed : ℝ
  score : ℝ
  isBoosting : Bool
  isAlive : Bool
  kills : ℕ

/-- `bot.segments[0]` (the sources index a non-empty list). -/
def SnakeR.head0 (s : SnakeR) : SegR := s.segments.getD 0 ⟨0, 0, 0⟩

/-- `Food` over `ℝ`. -/
structure FoodR where
  id : String
  x : ℝ
  y : ℝ
  value : ℝ
  color : String

def FoodR.pt (f : FoodR) : PointR := ⟨f.x, f.y⟩

/-- `BotPersonality` (lines 329-336). -/
structure BotPersonality where
  reactionSpeed : ℝ
  dangerLookAhead : ℝ
  hungerLevel : ℝ
  curviness : ℝ
  boostFrequency : ℝ
  aggression : ℝ

/-- `BotState` (lines 339-357): `number` timestamps/counters as `ℝ`,
nullable fields as `Option`. -/
structure BotState where
  personality : BotPersonality
  wanderPhase : ℝ
  lastBoostTime : ℝ
  currentFoodTarget : Option String
  foodTargetAge : ℝ
  lastDirectionChange : ℝ
  pauseEating : Bool
  pauseEatingUntil : ℝ
  huntTarget : Option String
  huntStartTime : ℝ
  lastHuntAttempt : ℝ
  collectingLoot : Bool
  lootTargetColor : Option String
  lootCollectionStart : ℝ
  lootPosition : Option PointR

/-- The `BotMoveResult.behavior` union type (line 363). -/
inductive Behavior where
  | wall_avoid
  | snake_avoid
  | hunt
  | loot
  | eat
  | wander
deriving DecidableEq

/-- `activateLootCollection` (lines 400-410); `Date.now()` passed in. -/
def activateLootCollection (botState : BotState) (victimColor : String)
    (victimPosition : PointR) (now : ℝ) : BotState :=
  { botState with
    collectingLoot := true
    lootTargetColor := some victimColor
    lootCollectionStart := now
    lootPosition := some victimPosition
    huntTarget := none }

/-- `findLootFood` (lines 413-446): best matching-colour food within 400px
of the kill position, scored `1000 / (distToBot + 50)`; the `-Infinity`
initial best score is the `none` accumulator (any first candidate wins). -/
noncomputable def findLootFood (bot : SnakeR) (food : List FoodR)
    (botState : BotState) : Option FoodR :=
  match botState.lootTargetColor, botState.lootPosition with
  | some color, some lootPos =>
    let head := bot.head0.pt
    let best := food.foldl
      (fun best f =>
        if f.color ≠ color then best
        else if distanceR lootPos f.pt > 400 then best
        else
          let score := 1000 / (distanceR head f.pt + 50)
          match best with
          | none => some (f, score)
          | some (_, bs) => if score > bs then some (f, score) else best)
      (none : Option (FoodR × ℝ))
    best.map (fun p => p.1)
  | _, _ => none

/-- `distanceToWall` (lines 449-473): `none` models the `Infinity` start
value surviving to the return (no axis selected); otherwise the running
`Math.min` over the selected axis distances, clamped by `Math.max(0, ·)`. -/
noncomputable def distanceToWall (pos : PointR) (direction : ℝ) : Option ℝ :=
  let cosD := Real.cos direction
  let sinD := Real.sin direction
  let cands : List ℝ :=
    (if cosD > 0.01 then [(((GAME_CONFIG.MAP_WIDTH : ℚ) : ℝ) - pos.x) / cosD] else []) ++
    (if cosD < -0.01 then [(-pos.x) / cosD] else []) ++
    (if sinD > 0.01 then [(((GAME_CONFIG.MAP_HEIGHT : ℚ) : ℝ) - pos.y) / sinD] else []) ++
    (if sinD < -0.01 then [(-pos.y) / sinD] else [])
  match cands with
  | [] => none
  | c :: cs => some (max 0 (cs.foldl min c))

/-- `isInSafeZone` (lines 476-481). -/
noncomputable def isInSafeZone (pos : PointR) (margin : ℝ) : Bool :=
  decide (pos.x > margin ∧ pos.x < ((GAME_CONFIG.MAP_WIDTH : ℚ) : ℝ) - margin ∧
    pos.y > margin ∧ pos.y < ((GAME_CONFIG.MAP_HEIGHT : ℚ) : ℝ) - margin)

/-- `score > bestScore` where `none` is `Infinity` (for the wall-scan
scores, where a test direction with no wall ahead scores `Infinity`). -/
noncomputable def infGt (a b : Option ℝ) : Bool :=
  match a, b with
  | none, none => false
  | none, some _ => true
  | some _, none => false
  | some x, some y => decide (x > y)

/-- `getWallAvoidanceAngle` (lines 484-521): `none` models the `null`
return; the 8-direction scan tracks `(bestAngle, bestScore)` with the
`-Infinity` initial best score as a `none` accumulator. -/
noncomputable def getWallAvoidanceAngle (pos : PointR) (currentDirection lookAhead : ℝ) :
    Option ℝ :=
  match distanceToWall pos currentDirection with
  | none => none
  | some wallDist =>
    if wallDist > lookAhead then none
    else
      let urgency := 1 - wallDist / lookAhead
      let best := (List.range 8).foldl
        (fun best i =>
          let testAngle := currentDirection + ((i : ℝ) - 4) * 0.4
          let testDist := distanceToWall pos testAngle
          let centerX := ((GAME_CONFIG.MAP_WIDTH : ℚ) : ℝ) / 2
          let centerY := ((GAME_CONFIG.MAP_HEIGHT : ℚ) : ℝ) / 2
          let toCenterAngle := angleBetweenR pos ⟨centerX, centerY⟩
          let angleDiffToCenter := |normalizeAngle (testAngle - toCenterAngle)|
          let centerBonus := 1 - angleDiffToCenter / Real.pi
          let score := testDist.map (fun dI => dI + centerBonus * 100)
          match best.2 with
          | none => (testAngle, some score)
          | some bs => if infGt score bs = true then (testAngle, some score) else best)
        (currentDirection, (none : Option (Option ℝ)))
      let blendFactor := min 1 (urgency * 2)
      some (currentDirection + normalizeAngle (best.1 - currentDirection) * blendFactor)

/-- `findBestFood` (lines 614-673).  `checkedCount++ > 50` lets the first
51 food items through; the contested check looks at the first 4 qualifying
(alive, not self) snakes; `-Infinity` best score is the `none` accumulator. -/
noncomputable def findBestFood (bot : SnakeR) (food : List FoodR)
    (allSnakes : List SnakeR) (botState : BotState) : Option FoodR :=
  let head := bot.head0.pt
  let searchRadius : ℝ := 700
  let currentTarget := botState.currentFoodTarget
  let best := (food.take 51).foldl
    (fun best f =>
      let dist := distanceR head f.pt
      if dist > searchRadius then best
      else
        let score0 := f.value * 10 / (dist + 50)
        let score1 := if currentTarget = some f.id then score0 * 1.5 else score0
        let score2 := if isInSafeZone f.pt 100 = false then score1 * 0.5 else score1
        let contestedPenalty : ℝ :=
          if ((allSnakes.filter (fun s => !(decide (s.id = bot.id)) && s.isAlive)).take 4).any
              (fun s => decide (distanceR f.pt s.head0.pt < 100)) = true
          then 0.3 else 1
        let score := score2 * contestedPenalty
        match best with
        | none => some (f, score)
        | some (_, bs) => if score > bs then some (f, score) else best)
    (none : Option (FoodR × ℝ))
  best.map (fun p => p.1)

/-- Body of the `findHuntTarget` candidate loop after the per-kind filters
(lines 709-728): the running best starts at `bestScore = 0`. -/
noncomputable def huntConsider (head : PointR) (other : SnakeR) (isPlayer : Bool)
    (best : Option SnakeR × ℝ) : Option SnakeR × ℝ :=
  if other.score < 5 then best
  else
    let otherHead := other.head0.pt
    let dist := distanceR head otherHead
    if dist > 500 then best
    else if isInSafeZone otherHead 150 = false then best
    else
      let playerBonus : ℝ := if isPlayer = true then 1.5 else 1
      let score := other.score * playerBonus / (dist + 100)
      if score > best.2 then (some other, score) else best

/-- `findHuntTarget` (lines 677-732).  `checkedCount++ > 10` lets the first
11 qualifying (alive, not self) candidates through; one random draw per
player candidate that passes the 2x-size filter. -/
noncomputable def findHuntTarget (bot : SnakeR) (allSnakes : List SnakeR)
    (_personality : BotPersonality) (rand : ℕ → ℝ) (k : ℕ) : Option SnakeR × ℕ :=
  if bot.score < 15 then (none, k)
  else
    let head := bot.head0.pt
    let r := ((allSnakes.filter (fun s => !(decide (s.id = bot.id)) && s.isAlive)).take 11).foldl
      (fun acc other =>
        if strStartsWith other.id "bot_" = false then
          if bot.score < other.score * 2 then acc
          else if rand acc.2 > 0.2 then (acc.1, acc.2 + 1)
          else (huntConsider head other true acc.1, acc.2 + 1)
        else
          if other.score > bot.score * 0.9 then acc
          else (huntConsider head other false acc.1, acc.2))
      (((none : Option SnakeR), (0 : ℝ)), k)
    (r.1.1, r.2)

/-- `calculateHuntAngle` (lines 735-757). -/
noncomputable def calculateHuntAngle (hunter prey : SnakeR) : ℝ :=
  let hunterHead := hunter.head0.pt
  let preyHead := prey.head0.pt
  let dist := distanceR hunterHead preyHead
  if dist < 150 then angleBetweenR hunterHead preyHead
  else
    let preySpeed := if prey.isBoosting = true then ((GAME_CONFIG.BOOST_SPEED : ℚ) : ℝ)
      else ((GAME_CONFIG.BASE_SPEED : ℚ) : ℝ)
    let predictTime : ℝ := 0.5
    let predictDistance := preySpeed * 60 * predictTime
    angleBetweenR hunterHead
      ⟨preyHead.x + Real.cos prey.direction * predictDistance,
       preyHead.y + Real.sin prey.direction * predictDistance⟩

/-- `getWanderAngle` (lines 760-776): always draws one random for the
direction-change threshold, a second one only when it triggers. -/
noncomputable def getWanderAngle (bot : SnakeR) (botState : BotState) (now : ℝ)
    (rand : ℕ → ℝ) (k : ℕ) : ℝ × BotState × ℕ :=
  let wanderOffset := Real.sin botState.wanderPhase * botState.personality.curviness
  if now - botState.lastDirectionChange > 5000 + rand k * 5000 then
    (bot.direction + wanderOffset + (rand (k + 1) - 0.5) * 0.5,
      { botState with lastDirectionChange := now }, k + 2)
  else
    (bot.direction + wanderOffset + 0, botState, k + 1)

/-- Accumulator of the `getSnakeAvoidanceAngle` scan: danger vector, total
danger, and the tracked nearest player head with its distance (`none` =
the `Infinity` initial `nearestPlayerDist`, i.e. no head within 300px yet). -/
structure AvoidAcc where
  dx : ℝ
  dy : ℝ
  total : ℝ
  nearest : Option (PointR × ℝ)

/-- Inner segment loop of `getSnakeAvoidanceAngle` (lines 553-584): every
4th segment from `startIdx`, skipping far and out-of-FOV segments, with the
early exit once `totalDanger > 1.5` (modelled by freezing the fold). -/
noncomputable def segDangerFold (head : PointR) (botDir lookDistance : ℝ)
    (snake : SnakeR) (startIdx : ℕ) (acc : AvoidAcc) : AvoidAcc :=
  let fov := Real.pi
  (stepIndices startIdx snake.segments.length 4).foldl
    (fun a i =>
      if a.total > 1.5 then a
      else
        let seg := snake.segments.getD i ⟨0, 0, 0⟩
        let dist := distanceR head seg.pt
        if dist > lookDistance then a
        else
          let angleToSeg := angleBetweenR head seg.pt
          let angleDiff := |normalizeAngle (angleToSeg - botDir)|
          if angleDiff > fov / 2 then a
          else
            let danger := 1 - dist / lookDistance
            let weight := danger * danger
            let awayAngle := angleBetweenR seg.pt head
            { dx := a.dx + Real.cos awayAngle * weight,
              dy := a.dy + Real.sin awayAngle * weight,
              total := a.total + weight,
              nearest := a.nearest })
    acc

/-- One snake of the outer `getSnakeAvoidanceAngle` loop (lines 540-588):
skip dead snakes, track the nearest non-bot head within 300px, then
accumulate segment danger; a `totalDanger` already above 1.5 freezes the
scan (the `break`). -/
noncomputable def snakeScanStep (bot : SnakeR) (head : PointR) (lookDistance : ℝ)
    (a : AvoidAcc) (snake : SnakeR) : AvoidAcc :=
  if a.total > 1.5 then a
  else if snake.isAlive = false then a
  else
    let a1 :=
      if strStartsWith snake.id "bot_" = false ∧ snake.id ≠ bot.id then
        let playerHead := snake.head0.pt
        let distToPlayer := distanceR head playerHead
        match a.nearest with
        | none =>
          if distToPlayer < 300 then { a with nearest := some (playerHead, distToPlayer) }
          else a
        | some (_, nd) =>
          if distToPlayer < nd ∧ distToPlayer < 300 then
            { a with nearest := some (playerHead, distToPlayer) }
          else a
      else a
    segDangerFold head bot.direction lookDistance snake
      (if snake.id = bot.id then 15 else 0) a1

/-- Outer snake loop of `getSnakeAvoidanceAngle` (lines 540-588). -/
noncomputable def snakeAvoidFold (bot : SnakeR) (head : PointR) (lookDistance : ℝ)
    (allSnakes : List SnakeR) : AvoidAcc :=
  allSnakes.foldl (snakeScanStep bot head lookDistance) ⟨0, 0, 0, none⟩

/-- `getSnakeAvoidanceAngle` (lines 525-610): returns the `null`-able
`(angle, danger, isAttacking)` result plus the advanced random cursor (one
draw for the attack roll, made exactly when a player head was tracked). -/
noncomputable def getSnakeAvoidanceAngle (bot : SnakeR) (allSnakes : List SnakeR)
    (personality : BotPersonality) (rand : ℕ → ℝ) (k : ℕ) :
    Option (ℝ × ℝ × Bool) × ℕ :=
  let head := bot.head0.pt
  let lookDistance := personality.dangerLookAhead * 1.5
  let acc := snakeAvoidFold bot head lookDistance allSnakes
  let attackChance := personality.aggression * 0.05
  let escape : Option (ℝ × ℝ × Bool) :=
    if acc.total < 0.1 then none
    else
      let escapeAngle := atan2 acc.dy acc.dx
      let reactionMultiplier := personality.reactionSpeed
      let blendedAngle :=
        bot.direction + normalizeAngle (escapeAngle - bot.direction) * reactionMultiplier
      some (blendedAngle, min 1 acc.total, false)
  match acc.nearest with
  | some (ph, pd) =>
    if rand k < attackChance ∧ pd > 80 then
      (some (angleBetweenR head ph, 0.5, true), k + 1)
    else (escape, k + 1)
  | none => (escape, k)

/-- The shared state of `calculateBotMove` as it flows through the
priority stages: the `targetAngle` / `shouldBoost` / `behavior` locals,
the (mutated-in-place) `botState`, and the random cursor. -/
structure BotCtx where
  bot : SnakeR
  allSnakes : List SnakeR
  food : List FoodR
  now : ℝ
  rand : ℕ → ℝ
  boostEnergy : ℝ

structure BotAcc where
  targetAngle : ℝ
  shouldBoost : Bool
  behavior : Behavior
  st : BotState
  k : ℕ

/-- Entry of `calculateBotMove` (lines 786-798): wander-phase update and
the `targetAngle = bot.direction`, `shouldBoost = false`,
`behavior = 'wander'` defaults. -/
noncomputable def initAcc (c : BotCtx) (st : BotState) : BotAcc :=
  let wp := st.wanderPhase + 0.005
  let wp2 := if wp > Real.pi * 2 then wp - Real.pi * 2 else wp
  { targetAngle := c.bot.direction, shouldBoost := false, behavior := Behavior.wander,
    st := { st with wanderPhase := wp2 }, k := 0 }

/-- PRIORITY 1 (lines 800-811): wall avoidance, boosting when the wall is
closer than 50px and energy exceeds 40. -/
noncomputable def wallAvoidStage (c : BotCtx) (a : BotAcc) : BotAcc :=
  match getWallAvoidanceAngle c.bot.head0.pt c.bot.direction
      a.st.personality.dangerLookAhead with
  | some wallAngle =>
    let a2 := { a with targetAngle := wallAngle, behavior := Behavior.wall_avoid }
    match distanceToWall c.bot.head0.pt c.bot.direction with
    | some wallDist =>
      if wallDist < 50 ∧ c.boostEnergy > 40 then { a2 with shouldBoost := true } else a2
    | none => a2
  | none => a

/-- PRIORITY 2 (lines 813-826): snake avoidance when not already avoiding
a wall; acts only above danger 0.3, boosts above danger 0.7 with energy
over 60 and a 3s boost cooldown. -/
noncomputable def snakeAvoidStage (c : BotCtx) (a : BotAcc) : BotAcc :=
  if a.behavior ≠ Behavior.wall_avoid then
    let r := getSnakeAvoidanceAngle c.bot c.allSnakes a.st.personality c.rand a.k
    match r.1 with
    | some (angle, danger, _isAttacking) =>
      if danger > 0.3 then
        let a2 := { a with targetAngle := angle, behavior := Behavior.snake_avoid, k := r.2 }
        if danger > 0.7 ∧ c.boostEnergy > 60 ∧ c.now - a.st.lastBoostTime > 3000 then
          { a2 with shouldBoost := true, st := { a.st with lastBoostTime := c.now } }
        else a2
      else { a with k := r.2 }
    | none => { a with k := r.2 }
  else a

/-- Hunt-target re-evaluation (lines 830-842): every 1500ms, roll
`aggression * 2.5 + 0.3` and, on success, adopt `findHuntTarget`'s pick. -/
noncomputable def huntReevaluate (c : BotCtx) (st : BotState) (k : ℕ) : BotState × ℕ :=
  if c.now - st.lastHuntAttempt > 1500 then
    let st1 := { st with lastHuntAttempt := c.now }
    if c.rand k < st1.personality.aggression * 2.5 + 0.3 then
      let r := findHuntTarget c.bot c.allSnakes st1.personality c.rand (k + 1)
      match r.1 with
      | some target =>
        ({ st1 with huntTarget := some target.id, huntStartTime := c.now }, r.2)
      | none => (st1, r.2)
    else (st1, k + 1)
  else (st, k)

/-- Active-hunt execution (lines 844-873): drop the target when the prey
is gone, too far (600px), hunted too long (15s) or now above 95% of the
bot's score; otherwise steer by `calculateHuntAngle`, boosting within
250px with energy over 40 and a 1.5s cooldown. -/
noncomputable def huntExecute (c : BotCtx) (a : BotAcc) (st1 : BotState) (k1 : ℕ) : BotAcc :=
  match st1.huntTarget with
  | some tid =>
    match c.allSnakes.find? (fun s => decide (s.id = tid) && s.isAlive) with
    | some prey =>
      let head := c.bot.head0.pt
      let dist := distanceR head prey.head0.pt
      let huntDuration := c.now - st1.huntStartTime
      if dist > 600 ∨ huntDuration > 15000 ∨ prey.score > c.bot.score * 0.95 then
        { a with st := { st1 with huntTarget := none }, k := k1 }
      else
        let a2 := { a with
          targetAngle := calculateHuntAngle c.bot prey
          behavior := Behavior.hunt
          st := st1
          k := k1 }
        if dist < 250 ∧ c.boostEnergy > 40 ∧ c.now - st1.lastBoostTime > 1500 then
          { a2 with shouldBoost := true, st := { st1 with lastBoostTime := c.now } }
        else a2
    | none => { a with st := { st1 with huntTarget := none }, k := k1 }
  | none => { a with st := st1, k := k1 }

/-- PRIORITY 3 (lines 828-874): hunting, only from the `'wander'` state. -/
noncomputable def huntStage (c : BotCtx) (a : BotAcc) : BotAcc :=
  if a.behavior = Behavior.wander then
    huntExecute c a (huntReevaluate c a.st a.k).1 (huntReevaluate c a.st a.k).2
  else a

/-- PRIORITY 3.5 (lines 876-905): loot collection, only from the
`'wander'` state with `collectingLoot` set; past the 5000ms window (or
with no matching loot left) the loot fields are cleared, otherwise steer
to the best loot, boosting within 200px with energy over 30 and a 1s
cooldown. -/
noncomputable def lootStage (c : BotCtx) (a : BotAcc) : BotAcc :=
  if a.behavior = Behavior.wander ∧ a.st.collectingLoot = true then
    let lootDuration := c.now - a.st.lootCollectionStart
    if lootDuration > 5000 then
      { a with st := { a.st with
          collectingLoot := false
          lootTargetColor := none
          lootPosition := none } }
    else
      match findLootFood c.bot c.food a.st with
      | some lootFood =>
        let head := c.bot.head0.pt
        let a2 := { a with
          targetAngle := angleBetweenR head lootFood.pt
          behavior := Behavior.loot }
        let distToLoot := distanceR head lootFood.pt
        if distToLoot < 200 ∧ c.boostEnergy > 30 ∧ c.now - a.st.lastBoostTime > 1000 then
          { a2 with shouldBoost := true, st := { a2.st with lastBoostTime := c.now } }
        else a2
      | none =>
        { a with st := { a.st with
            collectingLoot := false
            lootTargetColor := none
            lootPosition := none } }
  else a

/-- Pause-eating roll (lines 909-915): past `pauseEatingUntil`, one random
against `hungerLevel`; a pause draws a second random for its duration. -/
noncomputable def foodPause (c : BotCtx) (st : BotState) (k : ℕ) : BotState × ℕ :=
  if c.now > st.pauseEatingUntil then
    if c.rand k > st.personality.hungerLevel then
      ({ st with
        pauseEating := true
        pauseEatingUntil := c.now + 1000 + c.rand (k + 1) * 2000 }, k + 2)
    else ({ st with pauseEating := false }, k + 1)
  else (st, k)

/-- `shouldReevaluate` (lines 918-921): `null` target short-circuits the
`||` before the random draw; otherwise one draw, then the age check. -/
noncomputable def foodShouldReevaluate (c : BotCtx) (st : BotState) (k : ℕ) : Bool × ℕ :=
  match st.currentFoodTarget with
  | none => (true, k)
  | some _ => (decide (c.rand k > 0.7) || decide (st.foodTargetAge > 180), k + 1)

/-- Target pursuit (lines 933-952): follow the current target food if it
still exists (ageing the pursuit, with the high-value boost rule), else
clear the target. -/
noncomputable def foodPursue (c : BotCtx) (a : BotAcc) (st3 : BotState) (k2 : ℕ) : BotAcc :=
  match st3.currentFoodTarget with
  | some fid =>
    match c.food.find? (fun f => decide (f.id = fid)) with
    | some targetFood =>
      let head := c.bot.head0.pt
      let a2 := { a with
        targetAngle := angleBetweenR head targetFood.pt
        behavior := Behavior.eat
        st := { st3 with foodTargetAge := st3.foodTargetAge + 1 }
        k := k2 }
      let distToFood := distanceR head targetFood.pt
      if targetFood.value ≥ 5 ∧ distToFood < 150 ∧ c.boostEnergy > 60 ∧
          c.now - st3.lastBoostTime > 3000 then
        { a2 with shouldBoost := true, st := { a2.st with lastBoostTime := c.now } }
      else a2
    | none =>
      { a with st := { st3 with currentFoodTarget := none, foodTargetAge := 0 }, k := k2 }
  | none => { a with st := st3, k := k2 }

/-- PRIORITY 4 (lines 907-954): food seeking, only from the `'wander'`
state and only while not pause-eating. -/
noncomputable def foodStage (c : BotCtx) (a : BotAcc) : BotAcc :=
  if a.behavior = Behavior.wander then
    let st1 := (foodPause c a.st a.k).1
    let k1 := (foodPause c a.st a.k).2
    if st1.pauseEating = false then
      let sre := (foodShouldReevaluate c st1 k1).1
      let k2 := (foodShouldReevaluate c st1 k1).2
      let st3 :=
        if sre = true then
          match findBestFood c.bot c.food c.allSnakes st1 with
          | some bestFood =>
            { st1 with
              currentFoodTarget := some bestFood.id
              foodTargetAge := 0 }
          | none => { st1 with currentFoodTarget := none }
        else st1
      foodPursue c a st3 k2
    else { a with st := st1, k := k1 }
  else a

/-- Fallback wandering (lines 956-965): `getWanderAngle` plus the rare
random boost (the roll always consumes one draw). -/
noncomputable def wanderStage (c : BotCtx) (a : BotAcc) : BotAcc :=
  if a.behavior = Behavior.wander then
    let w := getWanderAngle c.bot a.st c.now c.rand a.k
    if c.rand w.2.2 < a.st.personality.boostFrequency * 0.01 ∧ c.boostEnergy > 70 ∧
        c.now - w.2.1.lastBoostTime > 5000 then
      { a with
        targetAngle := w.1
        shouldBoost := true
        st := { w.2.1 with lastBoostTime := c.now }
        k := w.2.2 + 1 }
    else { a with targetAngle := w.1, st := w.2.1, k := w.2.2 + 1 }
  else a

/-- Safety check (lines 967-973): while wandering outside the 300px safe
zone, steer 30% toward the map centre. -/
noncomputable def safetyStage (c : BotCtx) (a : BotAcc) : BotAcc :=
  if a.behavior = Behavior.wander ∧ isInSafeZone c.bot.head0.pt 300 = false then
    let centerX := ((GAME_CONFIG.MAP_WIDTH : ℚ) : ℝ) / 2
    let centerY := ((GAME_CONFIG.MAP_HEIGHT : ℚ) : ℝ) / 2
    let toCenterAngle := angleBetweenR c.bot.head0.pt ⟨centerX, centerY⟩
    { a with targetAngle :=
        c.bot.direction + normalizeAngle (toCenterAngle - c.bot.direction) * 0.3 }
  else a

/-- The accumulated move state just before the loot-collection stage. -/
noncomputable def preLootAcc (c : BotCtx) (st : BotState) : BotAcc :=
  huntStage c (snakeAvoidStage c (wallAvoidStage c (initAcc c st)))

/-- `calculateBotMove` (lines 779-976) as the composition of its priority
stages; the result carries `{targetAngle, shouldBoost, behavior}` plus the
mutated `botState` and the number of `Math.random()` draws. -/
noncomputable def calculateBotMove (c : BotCtx) (st : BotState) : BotAcc :=
  safetyStage c (wanderStage c (foodStage c (lootStage c (preLootAcc c st))))

/-- The four loot-collection fields of two states agree. -/
abbrev lootFieldsEq (s t : BotState) : Prop :=
  s.collectingLoot = t.collectingLoot ∧ s.lootTargetColor = t.lootTargetColor ∧
    s.lootCollectionStart = t.lootCollectionStart ∧ s.lootPosition = t.lootPosition

theorem lootFieldsEq_trans {s t u : BotState} (h1 : lootFieldsEq s t)
    (h2 : lootFieldsEq t u) : lootFieldsEq s u :=
  ⟨h1.1.trans h2.1, h1.2.1.trans h2.2.1, h1.2.2.1.trans h2.2.2.1, h1.2.2.2.trans h2.2.2.2⟩

theorem initAcc_loot (c : BotCtx) (st : BotState) : lootFieldsEq (initAcc c st).st st :=
  ⟨rfl, rfl, rfl, rfl⟩

theorem wallAvoidStage_loot (c : BotCtx) (a : BotAcc) :
    lootFieldsEq (wallAvoidStage c a).st a.st := by
  simp only [wallAvoidStage]
  repeat' split
  all_goals exact ⟨rfl, rfl, rfl, rfl⟩

theorem snakeAvoidStage_loot (c : BotCtx) (a : BotAcc) :
    lootFieldsEq (snakeAvoidStage c a).st a.st := by
  simp only [snakeAvoidStage]
  repeat' split
  all_goals exact ⟨rfl, rfl, rfl, rfl⟩

theorem huntReevaluate_loot (c : BotCtx) (st : BotState) (k : ℕ) :
    lootFieldsEq (huntReevaluate c st k).1 st := by
  simp only [huntReevaluate]
  repeat' split
  all_goals exact ⟨rfl, rfl, rfl, rfl⟩

theorem huntExecute_loot (c : BotCtx) (a : BotAcc) (st1 : BotState) (k1 : ℕ) :
    lootFieldsEq (huntExecute c a st1 k1).st st1 := by
  simp only [huntExecute]
  repeat' split
  all_goals exact ⟨rfl, rfl, rfl, rfl⟩

theorem huntStage_loot (c : BotCtx) (a : BotAcc) :
    lootFieldsEq (huntStage c a).st a.st := by
  simp only [huntStage]
  split
  · exact lootFieldsEq_trans (huntExecute_loot c a _ _) (huntReevaluate_loot c a.st a.k)
  · exact ⟨rfl, rfl, rfl, rfl⟩

theorem foodPause_loot (c : BotCtx) (st : BotState) (k : ℕ) :
    lootFieldsEq (foodPause c st k).1 st := by
  simp only [foodPause]
  repeat' split
  all_goals exact ⟨rfl, rfl, rfl, rfl⟩

theorem foodPursue_loot (c : BotCtx) (a : BotAcc) (st3 : BotState) (k2 : ℕ) :
    lootFieldsEq (foodPursue c a st3 k2).st st3 := by
  simp only [foodPursue]
  repeat' split
  all_goals exact ⟨rfl, rfl, rfl, rfl⟩

theorem foodStage_loot (c : BotCtx) (a : BotAcc) :
    lootFieldsEq (foodStage c a).st a.st := by
  simp only [foodStage]
  split
  · split
    · refine lootFieldsEq_trans (foodPursue_loot c a _ _) ?_
      refine lootFieldsEq_trans ?_ (foodPause_loot c a.st a.k)
      repeat' split
      all_goals exact ⟨rfl, rfl, rfl, rfl⟩
    · exact foodPause_loot c a.st a.k
  · exact ⟨rfl, rfl, rfl, rfl⟩

theorem getWanderAngle_loot (bot : SnakeR) (st : BotState) (now : ℝ)
    (rand : ℕ → ℝ) (k : ℕ) : lootFieldsEq (getWanderAngle bot st now rand k).2.1 st := by
  simp only [getWanderAngle]
  repeat' split
  all_goals exact ⟨rfl, rfl, rfl, rfl⟩

theorem wanderStage_loot (c : BotCtx) (a : BotAcc) :
    lootFieldsEq (wanderStage c a).st a.st := by
  simp only [wanderStage]
  split
  · split
    · exact getWanderAngle_loot c.bot a.st c.now c.rand a.k
    · exact getWanderAngle_loot c.bot a.st c.now c.rand a.k
  · exact ⟨rfl, rfl, rfl, rfl⟩

theorem safetyStage_loot (c : BotCtx) (a : BotAcc) :
    lootFieldsEq (safetyStage c a).st a.st := by
  simp only [safetyStage]
  split
  all_goals exact ⟨rfl, rfl, rfl, rfl⟩

theorem wallAvoidStage_behavior (c : BotCtx) (a : BotAcc) :
    (wallAvoidStage c a).behavior = Behavior.loot → a.behavior = Behavior.loot := by
  simp only [wallAvoidStage]
  repeat' split
  all_goals intro h
  all_goals first | exact h | simp at h

theorem snakeAvoidStage_behavior (c : BotCtx) (a : BotAcc) :
    (snakeAvoidStage c a).behavior = Behavior.loot → a.behavior = Behavior.loot := by
  simp only [snakeAvoidStage]
  repeat' split
  all_goals intro h
  all_goals first | exact h | simp at h

theorem huntExecute_behavior (c : BotCtx) (a : BotAcc) (st1 : BotState) (k1 : ℕ) :
    (huntExecute c a st1 k1).behavior = Behavior.loot → a.behavior = Behavior.loot := by
  simp only [huntExecute]
  repeat' split
  all_goals intro h
  all_goals first | exact h | simp at h

theorem huntStage_behavior (c : BotCtx) (a : BotAcc) :
    (huntStage c a).behavior = Behavior.loot → a.behavior = Behavior.loot := by
  simp only [huntStage]
  split
  · exact huntExecute_behavior c a _ _
  · exact fun h => h

theorem foodPursue_behavior (c : BotCtx) (a : BotAcc) (st3 : BotState) (k2 : ℕ) :
    (foodPursue c a st3 k2).behavior = Behavior.loot → a.behavior = Behavior.loot := by
  simp only [foodPursue]
  repeat' split
  all_goals intro h
  all_goals first | exact h | simp at h

theorem foodStage_behavior (c : BotCtx) (a : BotAcc) :
    (foodStage c a).behavior = Behavior.loot → a.behavior = Behavior.loot := by
  simp only [foodStage]
  split
  · split
    · exact foodPursue_behavior c a _ _
    · exact fun h => h
  · exact fun h => h

theorem wanderStage_behavior (c : BotCtx) (a : BotAcc) :
    (wanderStage c a).behavior = Behavior.loot → a.behavior = Behavior.loot := by
  simp only [wanderStage]
  repeat' split
  all_goals intro h
  all_goals exact h

theorem safetyStage_behavior (c : BotCtx) (a : BotAcc) :
    (safetyStage c a).behavior = Behavior.loot → a.behavior = Behavior.loot := by
  simp only [safetyStage]
  split
  all_goals intro h
  all_goals exact h

/-- With the loot window expired, the loot stage never enters the pursuit
branch: from the `'wander'` state it clears the loot fields, from any
other state it is a no-op. -/
theorem lootStage_of_expired (c : BotCtx) (a : BotAcc)
    (hcol : a.st.collectingLoot = true)
    (hexp : c.now - a.st.lootCollectionStart > 5000) :
    lootStage c a =
      if a.behavior = Behavior.wander then
        { a with st := { a.st with
            collectingLoot := false
            lootTargetColor := none
            lootPosition := none } }
      else a := by
  by_cases hb : a.behavior = Behavior.wander
  · rw [lootStage, if_pos ⟨hb, hcol⟩, if_pos hexp, if_pos hb]
  · rw [lootStage, if_neg (fun hc => hb hc.1), if_neg hb]

/-- C8 (amended): a bot whose loot window (5000 ms) has expired at the
time of the `calculateBotMove` call never returns the `'loot'` behavior —
but the loot fields are cleared only when the call actually reaches the
loot stage in the `'wander'` state; a wall-avoiding, snake-avoiding or
hunting bot keeps `collectingLoot = true` for later cycles. -/
theorem c8_loot_expiry_amended (c : BotCtx) (st : BotState)
    (hcol : st.collectingLoot = true)
    (hexp : c.now - st.lootCollectionStart > 5000) :
    (calculateBotMove c st).behavior ≠ Behavior.loot ∧
    ((preLootAcc c st).behavior = Behavior.wander →
      (calculateBotMove c st).st.collectingLoot = false ∧
      (calculateBotMove c st).st.lootTargetColor = none ∧
      (calculateBotMove c st).st.lootPosition = none) := by
  have hpre : lootFieldsEq (preLootAcc c st).st st :=
    lootFieldsEq_trans (huntStage_loot c _)
      (lootFieldsEq_trans (snakeAvoidStage_loot c _)
        (lootFieldsEq_trans (wallAvoidStage_loot c _) (initAcc_loot c st)))
  have hcol2 : (preLootAcc c st).st.collectingLoot = true := hpre.1.trans hcol
  have hexp2 : c.now - (preLootAcc c st).st.lootCollectionStart > 5000 := by
    rw [hpre.2.2.1]
    exact hexp
  have hloot := lootStage_of_expired c (preLootAcc c st) hcol2 hexp2
  have hcbm : calculateBotMove c st =
      safetyStage c (wanderStage c (foodStage c (lootStage c (preLootAcc c st)))) := rfl
  by_cases hb : (preLootAcc c st).behavior = Behavior.wander
  · rw [if_pos hb] at hloot
    constructor
    · intro hfin
      rw [hcbm, hloot] at hfin
      have h1 := foodStage_behavior c _
        (wanderStage_behavior c _ (safetyStage_behavior c _ hfin))
      have h2 : (preLootAcc c st).behavior = Behavior.loot := h1
      rw [hb] at h2
      exact Behavior.noConfusion h2
    · intro _
      have hf : lootFieldsEq (calculateBotMove c st).st
          (lootStage c (preLootAcc c st)).st := by
        rw [hcbm]
        exact lootFieldsEq_trans (safetyStage_loot c _)
          (lootFieldsEq_trans (wanderStage_loot c _) (foodStage_loot c _))
      rw [hloot] at hf
      exact ⟨hf.1, hf.2.1, hf.2.2.2⟩
  · rw [if_neg hb] at hloot
    refine ⟨?_, fun hbw => absurd hbw hb⟩
    intro hfin
    rw [hcbm, hloot] at hfin
    have h1 := foodStage_behavior c _
      (wanderStage_behavior c _ (safetyStage_behavior c _ hfin))
    have h2 := wallAvoidStage_behavior c _
      (snakeAvoidStage_behavior c _ (huntStage_behavior c _ h1))
    have h3 : Behavior.wander = Behavior.loot := h2
    exact Behavior.noConfusion h3

/-- A lone bot at the map centre used to instantiate the C8 theorem. -/
noncomputable def c8Bot : SnakeR :=
  { id := "bot_w", name := "w", color := "#fff", segments := [⟨2500, 2500, 12⟩],
    direction := 0, speed := 3.54, score := 10, isBoosting := false, isAlive := true,
    kills := 0 }

noncomputable def c8Ctx : BotCtx :=
  { bot := c8Bot, allSnakes := [], food := [], now := 10000, rand := fun _ => 0,
    boostEnergy := 0 }

/-- A bot state whose 5000 ms loot window expired 5000 ms ago. -/
noncomputable def c8State : BotState :=
  { personality := ⟨0.5, 107, 0.8, 0.05, 0.05, 0.3⟩, wanderPhase := 0,
    lastBoostTime := 0, currentFoodTarget := none, foodTargetAge := 0,
    lastDirectionChange := 0, pauseEating := false, pauseEatingUntil := 0,
    huntTarget := none, huntStartTime := 0, lastHuntAttempt := 0,
    collectingLoot := true, lootTargetColor := some "#f00",
    lootCollectionStart := 0, lootPosition := some ⟨2500, 2500⟩ }

/-- C8 witness: the expiry theorem applied to the concrete expired state. -/
theorem c8_loot_expiry_witness :
    (calculateBotMove c8Ctx c8State).behavior ≠ Behavior.loot ∧
    ((preLootAcc c8Ctx c8State).behavior = Behavior.wander →
      (calculateBotMove c8Ctx c8State).st.collectingLoot = false ∧
      (calculateBotMove c8Ctx c8State).st.lootTargetColor = none ∧
      (calculateBotMove c8Ctx c8State).st.lootPosition = none) :=
  c8_loot_expiry_amended c8Ctx c8State rfl (by norm_num [c8Ctx, c8State])

/-! ### The original C8 reading is false for bots that are not wandering

A hunting bot (wall scan clear, no snake danger, an active hunt target in
range) never reaches the loot stage, so an expired loot window is *not*
cleared by that call: `collectingLoot` stays `true`. -/

noncomputable def cxPers : BotPersonality := ⟨0.5, 107, 0.8, 0.05, 0.05, 0.3⟩

noncomputable def cxHunter : SnakeR :=
  { id := "bot_b", name := "b", color := "#0ff", segments := [⟨2500, 2500, 12⟩],
    direction := 0, speed := 3.54, score := 100, isBoosting := false, isAlive := true,
    kills := 1 }

noncomputable def cxPrey : SnakeR :=
  { id := "bot_p", name := "p", color := "#f0f", segments := [⟨3050, 2500, 12⟩],
    direction := 0, speed := 3.54, score := 50, isBoosting := false, isAlive := true,
    kills := 0 }

noncomputable def cxCtx : BotCtx :=
  { bot := cxHunter, allSnakes := [cxHunter, cxPrey], food := [], now := 1000000,
    rand := fun _ => 0, boostEnergy := 0 }

noncomputable def cxState : BotState :=
  { personality := cxPers, wanderPhase := 0, lastBoostTime := 0,
    currentFoodTarget := none, foodTargetAge := 0, lastDirectionChange := 1000000,
    pauseEating := false, pauseEatingUntil := 0, huntTarget := some "bot_p",
    huntStartTime := 1000000, lastHuntAttempt := 1000000, collectingLoot := true,
    lootTargetColor := some "#888", lootCollectionStart := 994000,
    lootPosition := some ⟨2600, 2500⟩ }

noncomputable def cxState1 : BotState := { cxState with wanderPhase := (0 : ℝ) + 0.005 }

noncomputable def cxAcc0 : BotAcc :=
  { targetAngle := 0, shouldBoost := false, behavior := Behavior.wander, st := cxState1,
    k := 0 }

noncomputable def cxAccH : BotAcc :=
  { targetAngle := calculateHuntAngle cxHunter cxPrey, shouldBoost := false,
    behavior := Behavior.hunt, st := cxState1, k := 0 }

theorem cx_dist : distanceR ⟨2500, 2500⟩ ⟨3050, 2500⟩ = 550 := by
  rw [distanceR_mk]
  rw [show ((3050 : ℝ) - 2500) * ((3050 : ℝ) - 2500) +
      ((2500 : ℝ) - 2500) * ((2500 : ℝ) - 2500) = 550 * 550 by norm_num]
  exact Real.sqrt_mul_self (by norm_num)

theorem cx_init : initAcc cxCtx cxState = cxAcc0 := by
  simp only [initAcc]
  rw [show cxState.wanderPhase = (0 : ℝ) from rfl]
  rw [if_neg (show ¬((0 : ℝ) + 0.005 > Real.pi * 2) from by
    rw [not_lt]; nlinarith [Real.pi_gt_three])]
  rfl

theorem cx_dtw : distanceToWall ⟨2500, 2500⟩ 0 = some 2500 := by
  simp only [distanceToWall]
  rw [Real.cos_zero, Real.sin_zero]
  rw [if_pos (show (1 : ℝ) > 0.01 from by norm_num),
    if_neg (show ¬((1 : ℝ) < -0.01) from by norm_num),
    if_neg (show ¬((0 : ℝ) > 0.01) from by norm_num),
    if_neg (show ¬((0 : ℝ) < -0.01) from by norm_num)]
  norm_num [map_width_cast]

theorem cx_wa : getWallAvoidanceAngle ⟨2500, 2500⟩ 0 107 = none := by
  simp only [getWallAvoidanceAngle, cx_dtw]
  rw [if_pos (show (2500 : ℝ) > 107 from by norm_num)]

theorem cx_wall : wallAvoidStage cxCtx cxAcc0 = cxAcc0 := by
  simp only [wallAvoidStage]
  rw [show cxCtx.bot.head0.pt = (⟨2500, 2500⟩ : PointR) from rfl,
    show cxCtx.bot.direction = (0 : ℝ) from rfl,
    show cxAcc0.st.personality.dangerLookAhead = (107 : ℝ) from rfl, cx_wa]

theorem cx_fold :
    snakeAvoidFold cxHunter ⟨2500, 2500⟩ (107 * 1.5) [cxHunter, cxPrey] = ⟨0, 0, 0, none⟩ := by
  norm_num [snakeAvoidFold, snakeScanStep, segDangerFold, stepIndices, cx_dist,
    cxHunter, cxPrey, List.range', SegR.pt_mk, SnakeR.head0,
    show strStartsWith "bot_b" "bot_" = true from rfl,
    show strStartsWith "bot_p" "bot_" = true from rfl,
    show ¬("bot_p" = "bot_b") from by decide]

theorem cx_snake : snakeAvoidStage cxCtx cxAcc0 = cxAcc0 := by
  simp only [snakeAvoidStage]
  rw [if_pos (show cxAcc0.behavior ≠ Behavior.wall_avoid from fun h => Behavior.noConfusion h)]
  simp only [getSnakeAvoidanceAngle]
  rw [show cxAcc0.st.personality = cxPers from rfl,
    show cxPers.dangerLookAhead = (107 : ℝ) from rfl,
    show cxCtx.bot = cxHunter from rfl,
    show cxCtx.allSnakes = [cxHunter, cxPrey] from rfl,
    show cxHunter.head0.pt = (⟨2500, 2500⟩ : PointR) from rfl,
    cx_fold]
  norm_num

theorem cx_hre : huntReevaluate cxCtx cxState1 0 = (cxState1, 0) := by
  simp only [huntReevaluate]
  rw [if_neg (show ¬(cxCtx.now - cxState1.lastHuntAttempt > 1500) from by
    rw [show cxCtx.now = (1000000 : ℝ) from rfl,
      show cxState1.lastHuntAttempt = (1000000 : ℝ) from rfl]
    norm_num)]

theorem cx_find :
    List.find? (fun s => decide (s.id = "bot_p") && s.isAlive) cxCtx.allSnakes =
      some cxPrey := by
  rw [show cxCtx.allSnakes = [cxHunter, cxPrey] from rfl]
  rw [List.find?_cons_of_neg _ (by decide), List.find?_cons_of_pos _ (by decide)]

theorem cx_exec : huntExecute cxCtx cxAcc0 cxState1 0 = cxAccH := by
  simp only [huntExecute, show cxState1.huntTarget = some "bot_p" from rfl, cx_find,
    show cxCtx.bot.head0.pt = (⟨2500, 2500⟩ : PointR) from rfl,
    show cxPrey.head0.pt = (⟨3050, 2500⟩ : PointR) from rfl, cx_dist,
    show cxCtx.now = (1000000 : ℝ) from rfl,
    show cxState1.huntStartTime = (1000000 : ℝ) from rfl,
    show cxPrey.score = (50 : ℝ) from rfl,
    show cxCtx.bot.score = (100 : ℝ) from rfl,
    show cxState1.lastBoostTime = (0 : ℝ) from rfl,
    show cxCtx.boostEnergy = (0 : ℝ) from rfl]
  rw [if_neg (show ¬((550 : ℝ) > 600 ∨ (1000000 : ℝ) - 1000000 > 15000 ∨
      (50 : ℝ) > 100 * 0.95) from by norm_num)]
  rw [if_neg (show ¬((550 : ℝ) < 250 ∧ (0 : ℝ) > 40 ∧
      (1000000 : ℝ) - 0 > 1500) from by norm_num)]
  rfl

theorem cx_hunt : huntStage cxCtx cxAcc0 = cxAccH := by
  simp only [huntStage]
  rw [if_pos (show cxAcc0.behavior = Behavior.wander from rfl)]
  rw [show cxAcc0.st = cxState1 from rfl, show cxAcc0.k = 0 from rfl, cx_hre]
  exact cx_exec

theorem cx_loot : lootStage cxCtx cxAccH = cxAccH := by
  rw [lootStage, if_neg (fun h => Behavior.noConfusion h.1)]

theorem cx_food : foodStage cxCtx cxAccH = cxAccH := by
  rw [foodStage, if_neg (fun h => Behavior.noConfusion h)]

theorem cx_wander : wanderStage cxCtx cxAccH = cxAccH := by
  rw [wanderStage, if_neg (fun h => Behavior.noConfusion h)]

theorem cx_safety : safetyStage cxCtx cxAccH = cxAccH := by
  rw [safetyStage, if_neg (fun h => Behavior.noConfusion h.1)]

theorem c8_hunt_overrides_loot_counterexample :
    cxState.collectingLoot = true ∧
    cxCtx.now - cxState.lootCollectionStart > 5000 ∧
    (calculateBotMove cxCtx cxState).behavior = Behavior.hunt ∧
    (calculateBotMove cxCtx cxState).st.collectingLoot = true := by
  have hres : calculateBotMove cxCtx cxState = cxAccH := by
    rw [calculateBotMove, preLootAcc, cx_init, cx_wall, cx_snake, cx_hunt, cx_loot,
      cx_food, cx_wander, cx_safety]
  refine ⟨rfl, ?_, ?_, ?_⟩
  · rw [show cxCtx.now = (1000000 : ℝ) from rfl,
      show cxState.lootCollectionStart = (994000 : ℝ) from rfl]
    norm_num
  · rw [hres]
    rfl
  · rw [hres]
    rfl

end BotAI

end SkillArena
